import Mathlib

/-!
Verification of the per-tick car simulation core (`CarHandler.py` of the
Telemetry-Dashboard repository).  The Python floats are modelled as real
numbers; each helper function of the source is embedded as one Lean
definition with the same name (leading underscores dropped), mutating
functions become functions returning an updated `CarState`.
-/

namespace CarSim

noncomputable section

/-- Gravitational acceleration constant `G` from CarHandler.py. -/
def G : ℝ := 9.81

/-- Safety buffer distance `buffer_m` from CarHandler.py. -/
def buffer_m : ℝ := 5

/-- Default air density `rho_default` from CarHandler.py. -/
def rho_default : ℝ := 1.225

/-- Per-wheel tire state (dataclass `TireState`). -/
structure TireState where
  temp_C : ℝ := 70.0
  wear : ℝ := 0.0

/-- Static car configuration (dataclass `CarSpec`). -/
structure CarSpec where
  fuel_onboard_kg : ℝ
  car_weight_kg : ℝ
  tire_file : String
  aero_file : String
  engine_file : String
  brake_file : String

/-- The `temperature` sub-mapping of the tire parameter file. -/
structure TireTemperatureParams where
  optimal_C : ℝ
  cold_C : ℝ
  hot_C : ℝ
  grip_drop_cold : ℝ
  grip_drop_hot : ℝ

/-- Tire parameter mapping: keys read by `_calculate_tire_friction` are
mandatory in the source (plain indexing); `rr.Crr` is optional (guarded by
`"rr" in tp and "Crr" in tp["rr"]`). -/
structure TireParams where
  mu_peak_ref : ℝ
  Fz_ref_N : ℝ
  k_mu : ℝ
  temperature : TireTemperatureParams
  mu_drop_at_full_wear : ℝ
  Crr : Option ℝ := none

/-- Aero parameter mapping; every key is read with `.get` and a default. -/
structure AeroParams where
  rho : Option ℝ := none
  ClA : Option ℝ := none
  CdA : Option ℝ := none

/-- Brake parameter mapping; every key is read with `.get` and a default. -/
structure BrakeParams where
  a_brake_base : Option ℝ := none
  fade_start_C : Option ℝ := none
  fade_end_C : Option ℝ := none
  fade_min : Option ℝ := none

/-- Engine parameter mapping; every key is read with `.get` and a default
(both by `_get_engine_parameters` and by the thermal integrators). -/
structure EngineParams where
  idle_rpm : Option ℝ := none
  redline_rpm : Option ℝ := none
  shift_rpm : Option ℝ := none
  downshift_rpm : Option ℝ := none
  gear_ratios : Option (List ℝ) := none
  final_drive : Option ℝ := none
  wheel_radius_m : Option ℝ := none
  drivetrain_eff : Option ℝ := none
  top_speed_cap_mps : Option ℝ := none
  shift_time_s : Option ℝ := none
  torque_curve : Option (List (ℝ × ℝ)) := none
  tire_cool_rate : Option ℝ := none
  tire_heat_brake : Option ℝ := none
  tire_heat_accel : Option ℝ := none
  tire_wear_brake : Option ℝ := none
  tire_wear_accel : Option ℝ := none
  brake_cool_rate : Option ℝ := none
  brake_heat_gain : Option ℝ := none

/-- The mutable car state (dataclass `CarState`), with the source's
default field values. -/
structure CarState where
  car_id : String
  carSpec : CarSpec
  velocity_mps : ℝ := 0.0
  track_position : ℝ := 0.0
  acceleration_mps : ℝ := 19.6
  laps : ℤ := 0
  lap_start_time : ℝ := 0.0
  best_lap : ℝ := 0.0
  braking_zone : ℝ := -1.0
  braking_meter : ℝ := 0.0
  velo_target : ℝ := 0.0
  tire_FL : TireState := {}
  tire_FR : TireState := {}
  tire_RL : TireState := {}
  tire_RR : TireState := {}
  brake_FL_C : ℝ := 200.0
  brake_FR_C : ℝ := 200.0
  brake_RL_C : ℝ := 200.0
  brake_RR_C : ℝ := 200.0
  tire_params : Option TireParams := none
  aero_params : Option AeroParams := none
  engine_params : Option EngineParams := none
  brake_params : Option BrakeParams := none
  mu_effective : ℝ := 1.3
  throttle : ℝ := 0.0
  brake : ℝ := 0.0
  rpm : ℝ := 1200.0
  gear : ℤ := 1
  shift_timer : ℝ := 0.0
  active_corner_start : ℝ := -2.0
  active_corner_apex : ℝ := -2.0
  active_corner_exit : ℝ := -2.0
  past_apex : Bool := false

/-- Weather record of `TrackHandler.py`. -/
structure Weather where
  temp : ℝ

/-- Track segment (dataclass `Segment` of TrackHandler.py).  Note that the
dataclass has no `length_meter`, `end_s_meter` or `apex_s_meter` fields. -/
structure Segment where
  type : String
  s_meter : ℝ
  e_meter : ℝ
  speed_limit_mps : Option ℝ := none
  target_speed_mps : Option ℝ := none
  label : Option String := none
  radius_meter : Option ℝ := none
  direction : Option String := none

/-- Track record (dataclass `Track` of TrackHandler.py). -/
structure Track where
  name : String
  lap_length_meter : ℝ
  segments : List Segment
  weather : Weather

/-- First loop of `_find_next_corner` / `_update_active_corner`: the first
corner segment strictly ahead of `pos` in list order. -/
def find_corner_ahead (pos : ℝ) : List Segment → Option Segment
  | [] => none
  | seg :: rest =>
    if seg.type = "corner" ∧ seg.s_meter > pos then some seg
    else find_corner_ahead pos rest

/-- Wraparound loop of `_find_next_corner` / `_update_active_corner`: the
first corner segment in list order. -/
def find_first_corner : List Segment → Option Segment
  | [] => none
  | seg :: rest => if seg.type = "corner" then some seg else find_first_corner rest

/-- Embeds `_find_next_corner`: sets `braking_zone` and `velo_target` from the next
corner ahead, wrapping to the first corner; returns whether one was found. -/
def find_next_corner (car : CarState) (track : Track) : CarState × Bool :=
  match find_corner_ahead car.track_position track.segments with
  | some seg =>
      ({ car with braking_zone := seg.s_meter,
                  velo_target := Real.sqrt (max 0 (car.mu_effective * G * (seg.radius_meter.getD 0))) }, true)
  | none =>
    match find_first_corner track.segments with
    | some seg =>
        ({ car with braking_zone := seg.s_meter,
                    velo_target := Real.sqrt (max 0 (car.mu_effective * G * (seg.radius_meter.getD 0))) }, true)
    | none => (car, false)

/-- Embeds `_get_corner_boundaries`.  The source reads `length_meter`,
`end_s_meter` and `apex_s_meter` via `getattr` with default `None`, but the
`Segment` dataclass has none of these attributes, so the lookups always
yield `None` and the defaults apply: end = start + default length (60 m),
apex = midpoint. -/
def get_corner_boundaries (seg : Segment) (default_corner_length : ℝ) : ℝ × ℝ × ℝ :=
  let start_s := seg.s_meter
  let end_s := start_s + default_corner_length
  let apex_s := start_s + 0.5 * (end_s - start_s)
  (start_s, apex_s, end_s)

/-- Embeds `_update_active_corner`: re-derives the active corner boundaries when
the previous exit has been passed (or none is active). -/
def update_active_corner (car : CarState) (track : Track) : CarState × Bool :=
  if car.active_corner_exit < 0 ∨ car.track_position ≥ car.active_corner_exit then
    match find_corner_ahead car.track_position track.segments with
    | some seg =>
        let b := get_corner_boundaries seg 60.0
        ({ car with active_corner_start := b.1, active_corner_apex := b.2.1,
                    active_corner_exit := b.2.2, past_apex := false,
                    velo_target := Real.sqrt (max 0 (car.mu_effective * G * (seg.radius_meter.getD 0))) }, true)
    | none =>
      match find_first_corner track.segments with
      | some seg =>
          let b := get_corner_boundaries seg 60.0
          ({ car with active_corner_start := b.1, active_corner_apex := b.2.1,
                      active_corner_exit := b.2.2, past_apex := false,
                      velo_target := Real.sqrt (max 0 (car.mu_effective * G * (seg.radius_meter.getD 0))) }, true)
      | none => (car, false)
  else (car, false)

/-- Embeds `_calculate_aero_forces`: returns (downforce, drag). -/
def calculate_aero_forces (car : CarState) : ℝ × ℝ :=
  let rho := match car.aero_params with
    | none => rho_default
    | some ap => ap.rho.getD rho_default
  let ClA := match car.aero_params with
    | none => (0 : ℝ)
    | some ap => ap.ClA.getD 0
  let CdA := match car.aero_params with
    | none => (0 : ℝ)
    | some ap => ap.CdA.getD 0
  let v := car.velocity_mps
  (0.5 * rho * ClA * v * v, 0.5 * rho * CdA * v * v)

/-- Per-tire temperature grip factor of `_calculate_tire_friction`
(lines 201-210 of CarHandler.py): piecewise linear between the cold,
optimal and hot breakpoints; only the interior branch is clamped. -/
def temp_factor (T coldC optC hotC drop_cold drop_hot : ℝ) : ℝ :=
  if T ≤ coldC then 1 - drop_cold
  else if T ≥ hotC then 1 - drop_hot
  else
    let f :=
      if T ≤ optC then (1 - drop_cold) + (T - coldC) * (drop_cold / max 1e-6 (optC - coldC))
      else (1 - drop_hot) + (hotC - T) * (drop_hot / max 1e-6 (hotC - optC))
    max 0.2 (min 1.0 f)

/-- Loop body of `_calculate_tire_friction`: one tire's friction value. -/
def per_tire_friction (tire : TireState) (mu_load : ℝ) (tp : TireParams) : ℝ :=
  let f_temp := temp_factor tire.temp_C tp.temperature.cold_C tp.temperature.optimal_C
    tp.temperature.hot_C tp.temperature.grip_drop_cold tp.temperature.grip_drop_hot
  let w := max 0 (min 1 tire.wear)
  let f_wear := 1 - tp.mu_drop_at_full_wear * w
  max 0.2 (mu_load * f_temp * f_wear)

/-- Embeds `_calculate_tire_friction`: updates `mu_effective`. -/
def calculate_tire_friction (car : CarState) (mass F_down : ℝ) : CarState :=
  match car.tire_params with
  | none => { car with mu_effective := 1.30 }
  | some tp =>
    let Fz_total := mass * G + F_down
    let Fz_tire := Fz_total / 4
    let load_ratio := max 0.1 (Fz_tire / max 1e-6 tp.Fz_ref_N)
    let mu_load := tp.mu_peak_ref * (1 - tp.k_mu * Real.log load_ratio)
    let mu_list := [per_tire_friction car.tire_FL mu_load tp,
                    per_tire_friction car.tire_FR mu_load tp,
                    per_tire_friction car.tire_RL mu_load tp,
                    per_tire_friction car.tire_RR mu_load tp]
    { car with mu_effective := mu_list.sum / (mu_list.length : ℝ) }

/-- Embeds `_calculate_brake_fade`: returns (brake_fade, a_brake_eff, brake_temp_avg). -/
def calculate_brake_fade (car : CarState) : ℝ × ℝ × ℝ :=
  let a_brake_base := match car.brake_params with
    | none => (10 : ℝ)
    | some bp => bp.a_brake_base.getD 10
  let fade_start := match car.brake_params with
    | none => (650 : ℝ)
    | some bp => bp.fade_start_C.getD 650
  let fade_end := match car.brake_params with
    | none => (950 : ℝ)
    | some bp => bp.fade_end_C.getD 950
  let fade_min := match car.brake_params with
    | none => (0.70 : ℝ)
    | some bp => bp.fade_min.getD 0.70
  let brake_temp_avg := (car.brake_FL_C + car.brake_FR_C + car.brake_RL_C + car.brake_RR_C) / 4
  let brake_fade :=
    if brake_temp_avg ≤ fade_start then (1 : ℝ)
    else if brake_temp_avg ≥ fade_end then fade_min
    else 1 - (brake_temp_avg - fade_start) * ((1 - fade_min) / max 1e-6 (fade_end - fade_start))
  let mu_ref : ℝ := 1.30
  let grip_scale := max 0.50 (min 1.50 (car.mu_effective / max 1e-6 mu_ref))
  let a_brake_eff := max 0.5 (a_brake_base * grip_scale * brake_fade)
  (brake_fade, a_brake_eff, brake_temp_avg)

/-- Embeds `_get_distance_to_corner_points`: distances to the active apex and
exit, wrapped by the lap length when negative. -/
def get_distance_to_corner_points (car : CarState) (track : Track) : ℝ × ℝ :=
  let dist_to_apex := car.active_corner_apex - car.track_position
  let dist_to_apex := if dist_to_apex < 0 then dist_to_apex + track.lap_length_meter else dist_to_apex
  let dist_to_exit := car.active_corner_exit - car.track_position
  let dist_to_exit := if dist_to_exit < 0 then dist_to_exit + track.lap_length_meter else dist_to_exit
  (dist_to_apex, dist_to_exit)

/-- Embeds `_calculate_brake_demand`: stores `braking_meter` on the car and
returns the analog brake demand. -/
def calculate_brake_demand (car : CarState) (dist_to_apex a_brake_eff : ℝ) : CarState × ℝ :=
  let braking_meter :=
    if car.velocity_mps > car.velo_target ∧ car.velo_target > 0 then
      (car.velocity_mps ^ 2 - car.velo_target ^ 2) / (2 * max 1e-6 a_brake_eff)
    else 0
  let car := { car with braking_meter := braking_meter }
  let full_brake_dist := braking_meter + buffer_m
  let trail_braking_dist : ℝ := 0.5
  if car.velocity_mps ≤ car.velo_target then (car, 0)
  else if car.past_apex = false ∧ dist_to_apex ≤ full_brake_dist then
    if dist_to_apex ≤ trail_braking_dist then (car, max 0 (dist_to_apex / trail_braking_dist))
    else (car, 1)
  else (car, 0)

/-- Embeds `_calculate_throttle_demand` (pure). -/
def calculate_throttle_demand (car : CarState) (dist_to_apex a_brake_eff : ℝ) : ℝ :=
  let braking_meter :=
    if car.velocity_mps > car.velo_target ∧ car.velo_target > 0 then
      (car.velocity_mps ^ 2 - car.velo_target ^ 2) / (2 * max 1e-6 a_brake_eff)
    else 0
  let full_brake_dist := braking_meter + buffer_m
  let exit_ramp_dist : ℝ := 5.0
  if car.past_apex = true then max 0 (min 1 (1 - dist_to_apex / exit_ramp_dist))
  else if dist_to_apex ≤ full_brake_dist then 0
  else 1

/-- Embeds `_update_throttle_and_brake`: flips `past_apex`, then applies the
mutually exclusive brake/throttle priority rule with a 0.05 deadband. -/
def update_throttle_and_brake (car : CarState) (dist_to_apex a_brake_eff : ℝ) : CarState :=
  let car := if dist_to_apex ≤ 1.0 then { car with past_apex := true } else car
  let bd := calculate_brake_demand car dist_to_apex a_brake_eff
  let car := bd.1
  let brake_demand := bd.2
  let throttle_demand := calculate_throttle_demand car dist_to_apex a_brake_eff
  if brake_demand > 0.05 then { car with brake := brake_demand, throttle := 0 }
  else if throttle_demand > 0.05 then { car with throttle := throttle_demand, brake := 0 }
  else { car with brake := 0, throttle := 0 }

/-- Resolved engine parameters (the dict built by `_get_engine_parameters`). -/
structure ResolvedEngineParams where
  idle_rpm : ℝ
  redline_rpm : ℝ
  shift_rpm : ℝ
  downshift_rpm : ℝ
  gear_ratios : List ℝ
  final_drive : ℝ
  wheel_radius_m : ℝ
  driveline_eff : ℝ
  top_speed_cap : ℝ
  shift_time_s : ℝ
  torque_curve : List (ℝ × ℝ)

/-- Embeds `_get_engine_parameters`: extracts engine parameters with defaults. -/
def get_engine_parameters (ep : EngineParams) : ResolvedEngineParams :=
  { idle_rpm := ep.idle_rpm.getD 1200
    redline_rpm := ep.redline_rpm.getD 9000
    shift_rpm := ep.shift_rpm.getD 8200
    downshift_rpm := ep.downshift_rpm.getD 2500
    gear_ratios := ep.gear_ratios.getD [3.20, 2.30, 1.80, 1.45, 1.20, 1.00]
    final_drive := ep.final_drive.getD 3.70
    wheel_radius_m := ep.wheel_radius_m.getD 0.33
    driveline_eff := ep.drivetrain_eff.getD 0.92
    top_speed_cap := ep.top_speed_cap_mps.getD 1e9
    shift_time_s := ep.shift_time_s.getD 0.18
    torque_curve := ep.torque_curve.getD
      [(1000, 250), (3000, 380), (6000, 420), (8000, 390), (9000, 320)] }

/-- Embeds `_update_gear_and_rpm`: gear clamping, shift timer countdown, RPM from
wheel speed, up/downshift decisions, final RPM clamp. -/
def update_gear_and_rpm (car : CarState) (engine_params : ResolvedEngineParams) (dt : ℝ) : CarState :=
  let idle_rpm := engine_params.idle_rpm
  let redline_rpm := engine_params.redline_rpm
  let shift_rpm := engine_params.shift_rpm
  let downshift_rpm := engine_params.downshift_rpm
  let final_drive := engine_params.final_drive
  let wheel_radius_m := engine_params.wheel_radius_m
  let shift_time := engine_params.shift_time_s
  let max_gear : ℤ := max 1 (engine_params.gear_ratios.length : ℤ)
  let car := { car with gear := max 1 (min max_gear car.gear) }
  let car := if car.shift_timer > 0 then { car with shift_timer := max 0 (car.shift_timer - dt) } else car
  let wheel_omega := car.velocity_mps / max 1e-6 wheel_radius_m
  let gear_ratio := engine_params.gear_ratios.getD (car.gear - 1).toNat 0
  let rpm_from_speed := wheel_omega * gear_ratio * final_drive * (60 / (2 * Real.pi))
  let car := { car with rpm := max idle_rpm rpm_from_speed }
  let car :=
    if car.shift_timer ≤ 0 then
      if car.rpm ≥ shift_rpm ∧ car.gear < max_gear ∧ (car.throttle > 0.3 ∨ car.rpm ≥ shift_rpm + 200) then
        { car with gear := car.gear + 1, shift_timer := shift_time }
      else if car.rpm ≤ downshift_rpm ∧ car.gear > 1 ∧ (car.brake > 0.2 ∨ car.throttle < 0.1) then
        { car with gear := car.gear - 1, shift_timer := shift_time }
      else car
    else car
  let gear_ratio2 := engine_params.gear_ratios.getD (car.gear - 1).toNat 0
  let rpm_from_speed2 := wheel_omega * gear_ratio2 * final_drive * (60 / (2 * Real.pi))
  { car with rpm := max idle_rpm (min redline_rpm rpm_from_speed2) }

/-- Interpolation loop of `_calculate_torque`: scans consecutive torque
curve points for the bracketing pair; `none` when no pair brackets. -/
def torque_scan (rpm_now : ℝ) : List (ℝ × ℝ) → Option ℝ
  | p0 :: p1 :: rest =>
      if p0.1 ≤ rpm_now ∧ rpm_now ≤ p1.1 then
        some (p0.2 + ((rpm_now - p0.1) / max 1e-6 (p1.1 - p0.1)) * (p1.2 - p0.2))
      else torque_scan rpm_now (p1 :: rest)
  | _ => none

/-- Embeds `_calculate_torque`: torque-curve lookup scaled by throttle, zeroed
while a shift is in progress. -/
def calculate_torque (car : CarState) (engine_params : ResolvedEngineParams) : ℝ :=
  let torque_curve := engine_params.torque_curve
  let rpm_now := car.rpm
  let first := torque_curve.headD (0, 0)
  let last := torque_curve.getLastD (0, 0)
  let torque_Nm :=
    if rpm_now ≤ first.1 then first.2
    else if rpm_now ≥ last.1 then last.2
    else (torque_scan rpm_now torque_curve).getD first.2
  let torque_Nm := torque_Nm * max 0 (min 1 car.throttle)
  if car.shift_timer > 0 then 0 else torque_Nm

/-- Embeds `_calculate_driving_force`: returns
(F_drive, F_brake, F_rr, F_drag, F_net, a). -/
def calculate_driving_force (car : CarState) (mass F_down : ℝ)
    (engine_params : ResolvedEngineParams) : ℝ × ℝ × ℝ × ℝ × ℝ × ℝ :=
  let torque_Nm := calculate_torque car engine_params
  let gear_ratio := engine_params.gear_ratios.getD (car.gear - 1).toNat 0
  let wheel_torque := torque_Nm * gear_ratio * engine_params.final_drive * engine_params.driveline_eff
  let F_drive := wheel_torque / max 1e-6 engine_params.wheel_radius_m
  let Fz_total := mass * G + F_down
  let F_trac_max := car.mu_effective * Fz_total
  let F_drive := max (-F_trac_max) (min F_trac_max F_drive)
  let a_brake_eff := (calculate_brake_fade car).2.1
  let F_brake := car.brake * a_brake_eff * mass
  let Crr := match car.tire_params with
    | some tp => tp.Crr.getD 0.015
    | none => (0.015 : ℝ)
  let F_rr := Crr * Fz_total
  let F_drag := (calculate_aero_forces car).2
  let F_net := F_drive - F_drag - F_rr - F_brake
  (F_drive, F_brake, F_rr, F_drag, F_net, F_net / max 1e-6 mass)

/-- Embeds `_apply_tire_heating_and_wear`: cooling toward ambient (floored at 0),
brake/throttle heating and wear, wear clamped to [0, 1]. -/
def apply_tire_heating_and_wear (car : CarState) (dt : ℝ) (ep : EngineParams) : CarState :=
  let cool_rate := ep.tire_cool_rate.getD 0.08
  let heat_brake := ep.tire_heat_brake.getD 18.0
  let heat_accel := ep.tire_heat_accel.getD 8.0
  let wear_brake := ep.tire_wear_brake.getD 0.0005
  let wear_accel := ep.tire_wear_accel.getD 0.0002
  let ambient : ℝ := 25.0
  let car := { car with
    tire_FL := { car.tire_FL with temp_C := max 0 (car.tire_FL.temp_C - cool_rate * (car.tire_FL.temp_C - ambient) * dt) }
    tire_FR := { car.tire_FR with temp_C := max 0 (car.tire_FR.temp_C - cool_rate * (car.tire_FR.temp_C - ambient) * dt) }
    tire_RL := { car.tire_RL with temp_C := max 0 (car.tire_RL.temp_C - cool_rate * (car.tire_RL.temp_C - ambient) * dt) }
    tire_RR := { car.tire_RR with temp_C := max 0 (car.tire_RR.temp_C - cool_rate * (car.tire_RR.temp_C - ambient) * dt) } }
  let car :=
    if car.brake > (0.1 : ℝ) then
      let brake_factor := car.brake
      { car with
        tire_FL := { temp_C := car.tire_FL.temp_C + heat_brake * brake_factor * dt,
                     wear := car.tire_FL.wear + wear_brake * brake_factor * dt }
        tire_FR := { temp_C := car.tire_FR.temp_C + heat_brake * brake_factor * dt,
                     wear := car.tire_FR.wear + wear_brake * brake_factor * dt }
        tire_RL := { temp_C := car.tire_RL.temp_C + 0.6 * heat_brake * brake_factor * dt,
                     wear := car.tire_RL.wear + 0.6 * wear_brake * brake_factor * dt }
        tire_RR := { temp_C := car.tire_RR.temp_C + 0.6 * heat_brake * brake_factor * dt,
                     wear := car.tire_RR.wear + 0.6 * wear_brake * brake_factor * dt } }
    else car
  let car :=
    if car.throttle > (0.1 : ℝ) then
      let throttle_factor := car.throttle
      { car with
        tire_RL := { temp_C := car.tire_RL.temp_C + heat_accel * throttle_factor * dt,
                     wear := car.tire_RL.wear + wear_accel * throttle_factor * dt }
        tire_RR := { temp_C := car.tire_RR.temp_C + heat_accel * throttle_factor * dt,
                     wear := car.tire_RR.wear + wear_accel * throttle_factor * dt }
        tire_FL := { temp_C := car.tire_FL.temp_C + 0.4 * heat_accel * throttle_factor * dt,
                     wear := car.tire_FL.wear + 0.4 * wear_accel * throttle_factor * dt }
        tire_FR := { temp_C := car.tire_FR.temp_C + 0.4 * heat_accel * throttle_factor * dt,
                     wear := car.tire_FR.wear + 0.4 * wear_accel * throttle_factor * dt } }
    else car
  { car with
    tire_FL := { car.tire_FL with wear := max 0 (min 1 car.tire_FL.wear) }
    tire_FR := { car.tire_FR with wear := max 0 (min 1 car.tire_FR.wear) }
    tire_RL := { car.tire_RL with wear := max 0 (min 1 car.tire_RL.wear) }
    tire_RR := { car.tire_RR with wear := max 0 (min 1 car.tire_RR.wear) } }

/-- Embeds `_apply_brake_heating_and_cooling`: brake temperatures cool toward
ambient (floored at ambient) and heat proportionally to brake demand. -/
def apply_brake_heating_and_cooling (car : CarState) (dt : ℝ) (ep : EngineParams) : CarState :=
  let ambient : ℝ := 25.0
  let brake_cool := ep.brake_cool_rate.getD 0.10
  let brake_heat_per_brake := ep.brake_heat_gain.getD 120.0
  let car := { car with
    brake_FL_C := max ambient (car.brake_FL_C - brake_cool * (car.brake_FL_C - ambient) * dt)
    brake_FR_C := max ambient (car.brake_FR_C - brake_cool * (car.brake_FR_C - ambient) * dt)
    brake_RL_C := max ambient (car.brake_RL_C - brake_cool * (car.brake_RL_C - ambient) * dt)
    brake_RR_C := max ambient (car.brake_RR_C - brake_cool * (car.brake_RR_C - ambient) * dt) }
  if car.brake > 0 then
    let heat := brake_heat_per_brake * car.brake * dt
    { car with
      brake_FL_C := car.brake_FL_C + heat
      brake_FR_C := car.brake_FR_C + heat
      brake_RL_C := car.brake_RL_C + 0.6 * heat
      brake_RR_C := car.brake_RR_C + 0.6 * heat }
  else car

/-- Embeds `_handle_lap_completion`: on a line crossing, interpolates the crossing
time, bumps the lap counter, records the time and wraps the position. -/
def handle_lap_completion (car : CarState) (track : Track) (dt sim_t old_pos : ℝ) : CarState :=
  if car.track_position ≥ track.lap_length_meter then
    let distance_from_start := track.lap_length_meter - old_pos
    let distance_traveled := car.track_position - old_pos
    let time_frac := if distance_traveled > 0 then distance_from_start / distance_traveled else 0
    let crossing_time := (sim_t - dt) + time_frac * dt
    { car with laps := car.laps + 1, best_lap := crossing_time,
               track_position := car.track_position - track.lap_length_meter }
  else car

/-- The telemetry mapping returned by `run_sim`. -/
structure Telemetry where
  t : ℝ
  car_id : String
  v_mps : ℝ
  x_m : ℝ
  laps : ℤ
  mu_eff : ℝ
  throttle : ℝ
  brake : ℝ
  gear : ℤ
  rpm : ℝ
  brake_temp_avg_C : ℝ
  downforce_N : ℝ
  drag_N : ℝ

/-- The body of `run_sim` up to (and excluding) `_handle_lap_completion`:
returns the integrated state together with the downforce, drag and average
brake temperature values used in the telemetry record. -/
def run_sim_core (car : CarState) (dt : ℝ) (track : Track) : CarState × ℝ × ℝ × ℝ :=
  let mass := car.carSpec.car_weight_kg + car.carSpec.fuel_onboard_kg
  let car1 := if car.track_position ≥ car.braking_zone then (find_next_corner car track).1 else car
  let old_v := car1.velocity_mps
  let aero := calculate_aero_forces car1
  let F_down := aero.1
  let F_drag := aero.2
  let car2 := calculate_tire_friction car1 mass F_down
  let fade := calculate_brake_fade car2
  let a_brake_eff := fade.2.1
  let brake_temp_avg := fade.2.2
  let car3 := (update_active_corner car2 track).1
  let dist_to_apex := (get_distance_to_corner_points car3 track).1
  let car4 := update_throttle_and_brake car3 dist_to_apex a_brake_eff
  let engine_params := get_engine_parameters (car4.engine_params.getD {})
  let car5 := update_gear_and_rpm car4 engine_params dt
  let a := (calculate_driving_force car5 mass F_down engine_params).2.2.2.2.2
  let car6 := { car5 with velocity_mps := max 0 (min engine_params.top_speed_cap (car5.velocity_mps + a * dt)) }
  let car7 := { car6 with track_position := car6.track_position + ((old_v + car6.velocity_mps) / 2) * dt }
  let car8 := apply_brake_heating_and_cooling car7 dt (car7.engine_params.getD {})
  let car9 := apply_tire_heating_and_wear car8 dt (car8.engine_params.getD {})
  (car9, F_down, F_drag, brake_temp_avg)

/-- Embeds `run_sim`: one tick of the simulation core; returns the updated car
state and the telemetry mapping.  (The source's `time.time()` profiling
reads and the lap-crossing `print` do not influence either output.) -/
def run_sim (car : CarState) (dt : ℝ) (track : Track) (sim_t : ℝ) : CarState × Telemetry :=
  let res := run_sim_core car dt track
  let old_pos := car.track_position
  let car9 := res.1
  let carF := handle_lap_completion car9 track dt sim_t old_pos
  (carF,
    { t := sim_t
      car_id := carF.car_id
      v_mps := carF.velocity_mps
      x_m := carF.track_position
      laps := carF.laps
      mu_eff := carF.mu_effective
      throttle := carF.throttle
      brake := carF.brake
      gear := carF.gear
      rpm := carF.rpm
      brake_temp_avg_C := res.2.2.2
      downforce_N := res.2.1
      drag_N := res.2.2.1 })

/-! Concrete cars and tracks used to instantiate the theorems below. -/

/-- A 1000 kg car configuration (900 kg dry + 100 kg fuel). -/
def gtSpec : CarSpec :=
  { fuel_onboard_kg := 100, car_weight_kg := 900,
    tire_file := "", aero_file := "", engine_file := "", brake_file := "" }

/-- A car with all dataclass default field values (no parameter files
configured, so every subsystem uses its documented numeric defaults). -/
def baseCar : CarState := { car_id := "81", carSpec := gtSpec }

/-- A 10 m lap with a single straight segment (no corners). -/
def straightTrack10 : Track :=
  { name := "straight", lap_length_meter := 10,
    segments := [{ type := "straight", s_meter := 0, e_meter := 10 }],
    weather := { temp := 25 } }

/-- Coasting car (stale active corner already passed, apex 40 m away) with
a large negative stored velocity. -/
def c1CexCar : CarState :=
  { baseCar with
    velocity_mps := -1000
    past_apex := true
    active_corner_apex := 40
    active_corner_exit := 50
    braking_zone := 50 }

/-- Same coasting configuration at rest. -/
def c1WitCar : CarState :=
  { baseCar with
    past_apex := true
    active_corner_apex := 40
    active_corner_exit := 50
    braking_zone := 50 }

/-- Coasting car whose trapezoidal step lands exactly on the lap line:
with a = -0.14715 m/s² and dt = 1, the average velocity over the tick is
exactly 10 m/s, the lap length. -/
def c3CexCar : CarState := { c1WitCar with velocity_mps := 10.073575 }

/-- Coasting car that strictly overshoots the 10 m lap line in one tick. -/
def c3WitCar : CarState := { c1WitCar with velocity_mps := 12 }

/-- Fast car carrying a stale positive target speed from an earlier track. -/
def c5CexCar : CarState := { baseCar with velocity_mps := 50, velo_target := 10 }

/-- Fast car with the default (zero) target speed. -/
def c5WitCar : CarState := { baseCar with velocity_mps := 50 }

/-- Corner whose radius makes the target speed exactly 20 m/s:
1.3 * 9.81 * (400000 / 12753) = 400. -/
def c7Track : Track :=
  { name := "c7", lap_length_meter := 2000,
    segments := [{ type := "corner", s_meter := 1000, e_meter := 1060,
                   radius_meter := some (400000 / 12753) }],
    weather := { temp := 25 } }

/-- Car entering the braking zone at 200 m/s with one overheated tire. -/
def c7Car : CarState :=
  { baseCar with velocity_mps := 200, tire_FL := { temp_C := 1000, wear := 0 } }

/-- The spec scenario track: one corner of radius 100 m. -/
def c8Track : Track :=
  { name := "c8", lap_length_meter := 2000,
    segments := [{ type := "corner", s_meter := 1000, e_meter := 1060,
                   radius_meter := some 100 }],
    weather := { temp := 25 } }

/-- The spec scenario car: approaching the corner at 60 m/s, 10 m before
the apex. -/
def c8Car : CarState := { baseCar with velocity_mps := 60, track_position := 1020 }

/-- A concrete tire parameter set with moderate grip-drop values. -/
def tpExample : TireParams :=
  { mu_peak_ref := 1.5, Fz_ref_N := 4000, k_mu := 0.1,
    temperature := { optimal_C := 90, cold_C := 50, hot_C := 130,
                     grip_drop_cold := 0.5, grip_drop_hot := 0.5 },
    mu_drop_at_full_wear := 0.3 }

end

/-! Projection lemmas: pushing a CarState field through an if-then-else. -/
@[simp] theorem ite_proj_car_id (P : Prop) [Decidable P] (a b : CarState) :
    (if P then a else b).car_id = if P then a.car_id else b.car_id := by split <;> rfl
@[simp] theorem ite_proj_carSpec (P : Prop) [Decidable P] (a b : CarState) :
    (if P then a else b).carSpec = if P then a.carSpec else b.carSpec := by split <;> rfl
@[simp] theorem ite_proj_velocity_mps (P : Prop) [Decidable P] (a b : CarState) :
    (if P then a else b).velocity_mps = if P then a.velocity_mps else b.velocity_mps := by split <;> rfl
@[simp] theorem ite_proj_track_position (P : Prop) [Decidable P] (a b : CarState) :
    (if P then a else b).track_position = if P then a.track_position else b.track_position := by split <;> rfl
@[simp] theorem ite_proj_acceleration_mps (P : Prop) [Decidable P] (a b : CarState) :
    (if P then a else b).acceleration_mps = if P then a.acceleration_mps else b.acceleration_mps := by split <;> rfl
@[simp] theorem ite_proj_laps (P : Prop) [Decidable P] (a b : CarState) :
    (if P then a else b).laps = if P then a.laps else b.laps := by split <;> rfl
@[simp] theorem ite_proj_lap_start_time (P : Prop) [Decidable P] (a b : CarState) :
    (if P then a else b).lap_start_time = if P then a.lap_start_time else b.lap_start_time := by split <;> rfl
@[simp] theorem ite_proj_best_lap (P : Prop) [Decidable P] (a b : CarState) :
    (if P then a else b).best_lap = if P then a.best_lap else b.best_lap := by split <;> rfl
@[simp] theorem ite_proj_braking_zone (P : Prop) [Decidable P] (a b : CarState) :
    (if P then a else b).braking_zone = if P then a.braking_zone else b.braking_zone := by split <;> rfl
@[simp] theorem ite_proj_braking_meter (P : Prop) [Decidable P] (a b : CarState) :
    (if P then a else b).braking_meter = if P then a.braking_meter else b.braking_meter := by split <;> rfl
@[simp] theorem ite_proj_velo_target (P : Prop) [Decidable P] (a b : CarState) :
    (if P then a else b).velo_target = if P then a.velo_target else b.velo_target := by split <;> rfl
@[simp] theorem ite_proj_tire_FL (P : Prop) [Decidable P] (a b : CarState) :
    (if P then a else b).tire_FL = if P then a.tire_FL else b.tire_FL := by split <;> rfl
@[simp] theorem ite_proj_tire_FR (P : Prop) [Decidable P] (a b : CarState) :
    (if P then a else b).tire_FR = if P then a.tire_FR else b.tire_FR := by split <;> rfl
@[simp] theorem ite_proj_tire_RL (P : Prop) [Decidable P] (a b : CarState) :
    (if P then a else b).tire_RL = if P then a.tire_RL else b.tire_RL := by split <;> rfl
@[simp] theorem ite_proj_tire_RR (P : Prop) [Decidable P] (a b : CarState) :
    (if P then a else b).tire_RR = if P then a.tire_RR else b.tire_RR := by split <;> rfl
@[simp] theorem ite_proj_brake_FL_C (P : Prop) [Decidable P] (a b : CarState) :
    (if P then a else b).brake_FL_C = if P then a.brake_FL_C else b.brake_FL_C := by split <;> rfl
@[simp] theorem ite_proj_brake_FR_C (P : Prop) [Decidable P] (a b : CarState) :
    (if P then a else b).brake_FR_C = if P then a.brake_FR_C else b.brake_FR_C := by split <;> rfl
@[simp] theorem ite_proj_brake_RL_C (P : Prop) [Decidable P] (a b : CarState) :
    (if P then a else b).brake_RL_C = if P then a.brake_RL_C else b.brake_RL_C := by split <;> rfl
@[simp] theorem ite_proj_brake_RR_C (P : Prop) [Decidable P] (a b : CarState) :
    (if P then a else b).brake_RR_C = if P then a.brake_RR_C else b.brake_RR_C := by split <;> rfl
@[simp] theorem ite_proj_tire_params (P : Prop) [Decidable P] (a b : CarState) :
    (if P then a else b).tire_params = if P then a.tire_params else b.tire_params := by split <;> rfl
@[simp] theorem ite_proj_aero_params (P : Prop) [Decidable P] (a b : CarState) :
    (if P then a else b).aero_params = if P then a.aero_params else b.aero_params := by split <;> rfl
@[simp] theorem ite_proj_engine_params (P : Prop) [Decidable P] (a b : CarState) :
    (if P then a else b).engine_params = if P then a.engine_params else b.engine_params := by split <;> rfl
@[simp] theorem ite_proj_brake_params (P : Prop) [Decidable P] (a b : CarState) :
    (if P then a else b).brake_params = if P then a.brake_params else b.brake_params := by split <;> rfl
@[simp] theorem ite_proj_mu_effective (P : Prop) [Decidable P] (a b : CarState) :
    (if P then a else b).mu_effective = if P then a.mu_effective else b.mu_effective := by split <;> rfl
@[simp] theorem ite_proj_throttle (P : Prop) [Decidable P] (a b : CarState) :
    (if P then a else b).throttle = if P then a.throttle else b.throttle := by split <;> rfl
@[simp] theorem ite_proj_brake (P : Prop) [Decidable P] (a b : CarState) :
    (if P then a else b).brake = if P then a.brake else b.brake := by split <;> rfl
@[simp] theorem ite_proj_rpm (P : Prop) [Decidable P] (a b : CarState) :
    (if P then a else b).rpm = if P then a.rpm else b.rpm := by split <;> rfl
@[simp] theorem ite_proj_gear (P : Prop) [Decidable P] (a b : CarState) :
    (if P then a else b).gear = if P then a.gear else b.gear := by split <;> rfl
@[simp] theorem ite_proj_shift_timer (P : Prop) [Decidable P] (a b : CarState) :
    (if P then a else b).shift_timer = if P then a.shift_timer else b.shift_timer := by split <;> rfl
@[simp] theorem ite_proj_active_corner_start (P : Prop) [Decidable P] (a b : CarState) :
    (if P then a else b).active_corner_start = if P then a.active_corner_start else b.active_corner_start := by split <;> rfl
@[simp] theorem ite_proj_active_corner_apex (P : Prop) [Decidable P] (a b : CarState) :
    (if P then a else b).active_corner_apex = if P then a.active_corner_apex else b.active_corner_apex := by split <;> rfl
@[simp] theorem ite_proj_active_corner_exit (P : Prop) [Decidable P] (a b : CarState) :
    (if P then a else b).active_corner_exit = if P then a.active_corner_exit else b.active_corner_exit := by split <;> rfl
@[simp] theorem ite_proj_past_apex (P : Prop) [Decidable P] (a b : CarState) :
    (if P then a else b).past_apex = if P then a.past_apex else b.past_apex := by split <;> rfl
@[simp] theorem ite_tire_temp_C (P : Prop) [Decidable P] (a b : TireState) :
    (if P then a else b).temp_C = if P then a.temp_C else b.temp_C := by split <;> rfl
@[simp] theorem ite_tire_wear (P : Prop) [Decidable P] (a b : TireState) :
    (if P then a else b).wear = if P then a.wear else b.wear := by split <;> rfl

/-! Frame lemmas: each mutating helper leaves the fields it does not
assign unchanged. -/
@[simp] theorem find_next_corner_car_id (c : CarState) (tr : Track) :
    ((find_next_corner c tr).1).car_id = c.car_id := by unfold find_next_corner; cases find_corner_ahead c.track_position tr.segments <;> cases find_first_corner tr.segments <;> rfl
@[simp] theorem find_next_corner_carSpec (c : CarState) (tr : Track) :
    ((find_next_corner c tr).1).carSpec = c.carSpec := by unfold find_next_corner; cases find_corner_ahead c.track_position tr.segments <;> cases find_first_corner tr.segments <;> rfl
@[simp] theorem find_next_corner_velocity_mps (c : CarState) (tr : Track) :
    ((find_next_corner c tr).1).velocity_mps = c.velocity_mps := by unfold find_next_corner; cases find_corner_ahead c.track_position tr.segments <;> cases find_first_corner tr.segments <;> rfl
@[simp] theorem find_next_corner_track_position (c : CarState) (tr : Track) :
    ((find_next_corner c tr).1).track_position = c.track_position := by unfold find_next_corner; cases find_corner_ahead c.track_position tr.segments <;> cases find_first_corner tr.segments <;> rfl
@[simp] theorem find_next_corner_acceleration_mps (c : CarState) (tr : Track) :
    ((find_next_corner c tr).1).acceleration_mps = c.acceleration_mps := by unfold find_next_corner; cases find_corner_ahead c.track_position tr.segments <;> cases find_first_corner tr.segments <;> rfl
@[simp] theorem find_next_corner_laps (c : CarState) (tr : Track) :
    ((find_next_corner c tr).1).laps = c.laps := by unfold find_next_corner; cases find_corner_ahead c.track_position tr.segments <;> cases find_first_corner tr.segments <;> rfl
@[simp] theorem find_next_corner_lap_start_time (c : CarState) (tr : Track) :
    ((find_next_corner c tr).1).lap_start_time = c.lap_start_time := by unfold find_next_corner; cases find_corner_ahead c.track_position tr.segments <;> cases find_first_corner tr.segments <;> rfl
@[simp] theorem find_next_corner_best_lap (c : CarState) (tr : Track) :
    ((find_next_corner c tr).1).best_lap = c.best_lap := by unfold find_next_corner; cases find_corner_ahead c.track_position tr.segments <;> cases find_first_corner tr.segments <;> rfl
@[simp] theorem find_next_corner_braking_meter (c : CarState) (tr : Track) :
    ((find_next_corner c tr).1).braking_meter = c.braking_meter := by unfold find_next_corner; cases find_corner_ahead c.track_position tr.segments <;> cases find_first_corner tr.segments <;> rfl
@[simp] theorem find_next_corner_tire_FL (c : CarState) (tr : Track) :
    ((find_next_corner c tr).1).tire_FL = c.tire_FL := by unfold find_next_corner; cases find_corner_ahead c.track_position tr.segments <;> cases find_first_corner tr.segments <;> rfl
@[simp] theorem find_next_corner_tire_FR (c : CarState) (tr : Track) :
    ((find_next_corner c tr).1).tire_FR = c.tire_FR := by unfold find_next_corner; cases find_corner_ahead c.track_position tr.segments <;> cases find_first_corner tr.segments <;> rfl
@[simp] theorem find_next_corner_tire_RL (c : CarState) (tr : Track) :
    ((find_next_corner c tr).1).tire_RL = c.tire_RL := by unfold find_next_corner; cases find_corner_ahead c.track_position tr.segments <;> cases find_first_corner tr.segments <;> rfl
@[simp] theorem find_next_corner_tire_RR (c : CarState) (tr : Track) :
    ((find_next_corner c tr).1).tire_RR = c.tire_RR := by unfold find_next_corner; cases find_corner_ahead c.track_position tr.segments <;> cases find_first_corner tr.segments <;> rfl
@[simp] theorem find_next_corner_brake_FL_C (c : CarState) (tr : Track) :
    ((find_next_corner c tr).1).brake_FL_C = c.brake_FL_C := by unfold find_next_corner; cases find_corner_ahead c.track_position tr.segments <;> cases find_first_corner tr.segments <;> rfl
@[simp] theorem find_next_corner_brake_FR_C (c : CarState) (tr : Track) :
    ((find_next_corner c tr).1).brake_FR_C = c.brake_FR_C := by unfold find_next_corner; cases find_corner_ahead c.track_position tr.segments <;> cases find_first_corner tr.segments <;> rfl
@[simp] theorem find_next_corner_brake_RL_C (c : CarState) (tr : Track) :
    ((find_next_corner c tr).1).brake_RL_C = c.brake_RL_C := by unfold find_next_corner; cases find_corner_ahead c.track_position tr.segments <;> cases find_first_corner tr.segments <;> rfl
@[simp] theorem find_next_corner_brake_RR_C (c : CarState) (tr : Track) :
    ((find_next_corner c tr).1).brake_RR_C = c.brake_RR_C := by unfold find_next_corner; cases find_corner_ahead c.track_position tr.segments <;> cases find_first_corner tr.segments <;> rfl
@[simp] theorem find_next_corner_tire_params (c : CarState) (tr : Track) :
    ((find_next_corner c tr).1).tire_params = c.tire_params := by unfold find_next_corner; cases find_corner_ahead c.track_position tr.segments <;> cases find_first_corner tr.segments <;> rfl
@[simp] theorem find_next_corner_aero_params (c : CarState) (tr : Track) :
    ((find_next_corner c tr).1).aero_params = c.aero_params := by unfold find_next_corner; cases find_corner_ahead c.track_position tr.segments <;> cases find_first_corner tr.segments <;> rfl
@[simp] theorem find_next_corner_engine_params (c : CarState) (tr : Track) :
    ((find_next_corner c tr).1).engine_params = c.engine_params := by unfold find_next_corner; cases find_corner_ahead c.track_position tr.segments <;> cases find_first_corner tr.segments <;> rfl
@[simp] theorem find_next_corner_brake_params (c : CarState) (tr : Track) :
    ((find_next_corner c tr).1).brake_params = c.brake_params := by unfold find_next_corner; cases find_corner_ahead c.track_position tr.segments <;> cases find_first_corner tr.segments <;> rfl
@[simp] theorem find_next_corner_mu_effective (c : CarState) (tr : Track) :
    ((find_next_corner c tr).1).mu_effective = c.mu_effective := by unfold find_next_corner; cases find_corner_ahead c.track_position tr.segments <;> cases find_first_corner tr.segments <;> rfl
@[simp] theorem find_next_corner_throttle (c : CarState) (tr : Track) :
    ((find_next_corner c tr).1).throttle = c.throttle := by unfold find_next_corner; cases find_corner_ahead c.track_position tr.segments <;> cases find_first_corner tr.segments <;> rfl
@[simp] theorem find_next_corner_brake (c : CarState) (tr : Track) :
    ((find_next_corner c tr).1).brake = c.brake := by unfold find_next_corner; cases find_corner_ahead c.track_position tr.segments <;> cases find_first_corner tr.segments <;> rfl
@[simp] theorem find_next_corner_rpm (c : CarState) (tr : Track) :
    ((find_next_corner c tr).1).rpm = c.rpm := by unfold find_next_corner; cases find_corner_ahead c.track_position tr.segments <;> cases find_first_corner tr.segments <;> rfl
@[simp] theorem find_next_corner_gear (c : CarState) (tr : Track) :
    ((find_next_corner c tr).1).gear = c.gear := by unfold find_next_corner; cases find_corner_ahead c.track_position tr.segments <;> cases find_first_corner tr.segments <;> rfl
@[simp] theorem find_next_corner_shift_timer (c : CarState) (tr : Track) :
    ((find_next_corner c tr).1).shift_timer = c.shift_timer := by unfold find_next_corner; cases find_corner_ahead c.track_position tr.segments <;> cases find_first_corner tr.segments <;> rfl
@[simp] theorem find_next_corner_active_corner_start (c : CarState) (tr : Track) :
    ((find_next_corner c tr).1).active_corner_start = c.active_corner_start := by unfold find_next_corner; cases find_corner_ahead c.track_position tr.segments <;> cases find_first_corner tr.segments <;> rfl
@[simp] theorem find_next_corner_active_corner_apex (c : CarState) (tr : Track) :
    ((find_next_corner c tr).1).active_corner_apex = c.active_corner_apex := by unfold find_next_corner; cases find_corner_ahead c.track_position tr.segments <;> cases find_first_corner tr.segments <;> rfl
@[simp] theorem find_next_corner_active_corner_exit (c : CarState) (tr : Track) :
    ((find_next_corner c tr).1).active_corner_exit = c.active_corner_exit := by unfold find_next_corner; cases find_corner_ahead c.track_position tr.segments <;> cases find_first_corner tr.segments <;> rfl
@[simp] theorem find_next_corner_past_apex (c : CarState) (tr : Track) :
    ((find_next_corner c tr).1).past_apex = c.past_apex := by unfold find_next_corner; cases find_corner_ahead c.track_position tr.segments <;> cases find_first_corner tr.segments <;> rfl
@[simp] theorem update_active_corner_car_id (c : CarState) (tr : Track) :
    ((update_active_corner c tr).1).car_id = c.car_id := by unfold update_active_corner get_corner_boundaries; cases find_corner_ahead c.track_position tr.segments <;> cases find_first_corner tr.segments <;> split <;> rfl
@[simp] theorem update_active_corner_carSpec (c : CarState) (tr : Track) :
    ((update_active_corner c tr).1).carSpec = c.carSpec := by unfold update_active_corner get_corner_boundaries; cases find_corner_ahead c.track_position tr.segments <;> cases find_first_corner tr.segments <;> split <;> rfl
@[simp] theorem update_active_corner_velocity_mps (c : CarState) (tr : Track) :
    ((update_active_corner c tr).1).velocity_mps = c.velocity_mps := by unfold update_active_corner get_corner_boundaries; cases find_corner_ahead c.track_position tr.segments <;> cases find_first_corner tr.segments <;> split <;> rfl
@[simp] theorem update_active_corner_track_position (c : CarState) (tr : Track) :
    ((update_active_corner c tr).1).track_position = c.track_position := by unfold update_active_corner get_corner_boundaries; cases find_corner_ahead c.track_position tr.segments <;> cases find_first_corner tr.segments <;> split <;> rfl
@[simp] theorem update_active_corner_acceleration_mps (c : CarState) (tr : Track) :
    ((update_active_corner c tr).1).acceleration_mps = c.acceleration_mps := by unfold update_active_corner get_corner_boundaries; cases find_corner_ahead c.track_position tr.segments <;> cases find_first_corner tr.segments <;> split <;> rfl
@[simp] theorem update_active_corner_laps (c : CarState) (tr : Track) :
    ((update_active_corner c tr).1).laps = c.laps := by unfold update_active_corner get_corner_boundaries; cases find_corner_ahead c.track_position tr.segments <;> cases find_first_corner tr.segments <;> split <;> rfl
@[simp] theorem update_active_corner_lap_start_time (c : CarState) (tr : Track) :
    ((update_active_corner c tr).1).lap_start_time = c.lap_start_time := by unfold update_active_corner get_corner_boundaries; cases find_corner_ahead c.track_position tr.segments <;> cases find_first_corner tr.segments <;> split <;> rfl
@[simp] theorem update_active_corner_best_lap (c : CarState) (tr : Track) :
    ((update_active_corner c tr).1).best_lap = c.best_lap := by unfold update_active_corner get_corner_boundaries; cases find_corner_ahead c.track_position tr.segments <;> cases find_first_corner tr.segments <;> split <;> rfl
@[simp] theorem update_active_corner_braking_zone (c : CarState) (tr : Track) :
    ((update_active_corner c tr).1).braking_zone = c.braking_zone := by unfold update_active_corner get_corner_boundaries; cases find_corner_ahead c.track_position tr.segments <;> cases find_first_corner tr.segments <;> split <;> rfl
@[simp] theorem update_active_corner_braking_meter (c : CarState) (tr : Track) :
    ((update_active_corner c tr).1).braking_meter = c.braking_meter := by unfold update_active_corner get_corner_boundaries; cases find_corner_ahead c.track_position tr.segments <;> cases find_first_corner tr.segments <;> split <;> rfl
@[simp] theorem update_active_corner_tire_FL (c : CarState) (tr : Track) :
    ((update_active_corner c tr).1).tire_FL = c.tire_FL := by unfold update_active_corner get_corner_boundaries; cases find_corner_ahead c.track_position tr.segments <;> cases find_first_corner tr.segments <;> split <;> rfl
@[simp] theorem update_active_corner_tire_FR (c : CarState) (tr : Track) :
    ((update_active_corner c tr).1).tire_FR = c.tire_FR := by unfold update_active_corner get_corner_boundaries; cases find_corner_ahead c.track_position tr.segments <;> cases find_first_corner tr.segments <;> split <;> rfl
@[simp] theorem update_active_corner_tire_RL (c : CarState) (tr : Track) :
    ((update_active_corner c tr).1).tire_RL = c.tire_RL := by unfold update_active_corner get_corner_boundaries; cases find_corner_ahead c.track_position tr.segments <;> cases find_first_corner tr.segments <;> split <;> rfl
@[simp] theorem update_active_corner_tire_RR (c : CarState) (tr : Track) :
    ((update_active_corner c tr).1).tire_RR = c.tire_RR := by unfold update_active_corner get_corner_boundaries; cases find_corner_ahead c.track_position tr.segments <;> cases find_first_corner tr.segments <;> split <;> rfl
@[simp] theorem update_active_corner_brake_FL_C (c : CarState) (tr : Track) :
    ((update_active_corner c tr).1).brake_FL_C = c.brake_FL_C := by unfold update_active_corner get_corner_boundaries; cases find_corner_ahead c.track_position tr.segments <;> cases find_first_corner tr.segments <;> split <;> rfl
@[simp] theorem update_active_corner_brake_FR_C (c : CarState) (tr : Track) :
    ((update_active_corner c tr).1).brake_FR_C = c.brake_FR_C := by unfold update_active_corner get_corner_boundaries; cases find_corner_ahead c.track_position tr.segments <;> cases find_first_corner tr.segments <;> split <;> rfl
@[simp] theorem update_active_corner_brake_RL_C (c : CarState) (tr : Track) :
    ((update_active_corner c tr).1).brake_RL_C = c.brake_RL_C := by unfold update_active_corner get_corner_boundaries; cases find_corner_ahead c.track_position tr.segments <;> cases find_first_corner tr.segments <;> split <;> rfl
@[simp] theorem update_active_corner_brake_RR_C (c : CarState) (tr : Track) :
    ((update_active_corner c tr).1).brake_RR_C = c.brake_RR_C := by unfold update_active_corner get_corner_boundaries; cases find_corner_ahead c.track_position tr.segments <;> cases find_first_corner tr.segments <;> split <;> rfl
@[simp] theorem update_active_corner_tire_params (c : CarState) (tr : Track) :
    ((update_active_corner c tr).1).tire_params = c.tire_params := by unfold update_active_corner get_corner_boundaries; cases find_corner_ahead c.track_position tr.segments <;> cases find_first_corner tr.segments <;> split <;> rfl
@[simp] theorem update_active_corner_aero_params (c : CarState) (tr : Track) :
    ((update_active_corner c tr).1).aero_params = c.aero_params := by unfold update_active_corner get_corner_boundaries; cases find_corner_ahead c.track_position tr.segments <;> cases find_first_corner tr.segments <;> split <;> rfl
@[simp] theorem update_active_corner_engine_params (c : CarState) (tr : Track) :
    ((update_active_corner c tr).1).engine_params = c.engine_params := by unfold update_active_corner get_corner_boundaries; cases find_corner_ahead c.track_position tr.segments <;> cases find_first_corner tr.segments <;> split <;> rfl
@[simp] theorem update_active_corner_brake_params (c : CarState) (tr : Track) :
    ((update_active_corner c tr).1).brake_params = c.brake_params := by unfold update_active_corner get_corner_boundaries; cases find_corner_ahead c.track_position tr.segments <;> cases find_first_corner tr.segments <;> split <;> rfl
@[simp] theorem update_active_corner_mu_effective (c : CarState) (tr : Track) :
    ((update_active_corner c tr).1).mu_effective = c.mu_effective := by unfold update_active_corner get_corner_boundaries; cases find_corner_ahead c.track_position tr.segments <;> cases find_first_corner tr.segments <;> split <;> rfl
@[simp] theorem update_active_corner_throttle (c : CarState) (tr : Track) :
    ((update_active_corner c tr).1).throttle = c.throttle := by unfold update_active_corner get_corner_boundaries; cases find_corner_ahead c.track_position tr.segments <;> cases find_first_corner tr.segments <;> split <;> rfl
@[simp] theorem update_active_corner_brake (c : CarState) (tr : Track) :
    ((update_active_corner c tr).1).brake = c.brake := by unfold update_active_corner get_corner_boundaries; cases find_corner_ahead c.track_position tr.segments <;> cases find_first_corner tr.segments <;> split <;> rfl
@[simp] theorem update_active_corner_rpm (c : CarState) (tr : Track) :
    ((update_active_corner c tr).1).rpm = c.rpm := by unfold update_active_corner get_corner_boundaries; cases find_corner_ahead c.track_position tr.segments <;> cases find_first_corner tr.segments <;> split <;> rfl
@[simp] theorem update_active_corner_gear (c : CarState) (tr : Track) :
    ((update_active_corner c tr).1).gear = c.gear := by unfold update_active_corner get_corner_boundaries; cases find_corner_ahead c.track_position tr.segments <;> cases find_first_corner tr.segments <;> split <;> rfl
@[simp] theorem update_active_corner_shift_timer (c : CarState) (tr : Track) :
    ((update_active_corner c tr).1).shift_timer = c.shift_timer := by unfold update_active_corner get_corner_boundaries; cases find_corner_ahead c.track_position tr.segments <;> cases find_first_corner tr.segments <;> split <;> rfl
@[simp] theorem calculate_tire_friction_car_id (c : CarState) (m fd : ℝ) :
    (calculate_tire_friction c m fd).car_id = c.car_id := by unfold calculate_tire_friction; cases c.tire_params <;> rfl
@[simp] theorem calculate_tire_friction_carSpec (c : CarState) (m fd : ℝ) :
    (calculate_tire_friction c m fd).carSpec = c.carSpec := by unfold calculate_tire_friction; cases c.tire_params <;> rfl
@[simp] theorem calculate_tire_friction_velocity_mps (c : CarState) (m fd : ℝ) :
    (calculate_tire_friction c m fd).velocity_mps = c.velocity_mps := by unfold calculate_tire_friction; cases c.tire_params <;> rfl
@[simp] theorem calculate_tire_friction_track_position (c : CarState) (m fd : ℝ) :
    (calculate_tire_friction c m fd).track_position = c.track_position := by unfold calculate_tire_friction; cases c.tire_params <;> rfl
@[simp] theorem calculate_tire_friction_acceleration_mps (c : CarState) (m fd : ℝ) :
    (calculate_tire_friction c m fd).acceleration_mps = c.acceleration_mps := by unfold calculate_tire_friction; cases c.tire_params <;> rfl
@[simp] theorem calculate_tire_friction_laps (c : CarState) (m fd : ℝ) :
    (calculate_tire_friction c m fd).laps = c.laps := by unfold calculate_tire_friction; cases c.tire_params <;> rfl
@[simp] theorem calculate_tire_friction_lap_start_time (c : CarState) (m fd : ℝ) :
    (calculate_tire_friction c m fd).lap_start_time = c.lap_start_time := by unfold calculate_tire_friction; cases c.tire_params <;> rfl
@[simp] theorem calculate_tire_friction_best_lap (c : CarState) (m fd : ℝ) :
    (calculate_tire_friction c m fd).best_lap = c.best_lap := by unfold calculate_tire_friction; cases c.tire_params <;> rfl
@[simp] theorem calculate_tire_friction_braking_zone (c : CarState) (m fd : ℝ) :
    (calculate_tire_friction c m fd).braking_zone = c.braking_zone := by unfold calculate_tire_friction; cases c.tire_params <;> rfl
@[simp] theorem calculate_tire_friction_braking_meter (c : CarState) (m fd : ℝ) :
    (calculate_tire_friction c m fd).braking_meter = c.braking_meter := by unfold calculate_tire_friction; cases c.tire_params <;> rfl
@[simp] theorem calculate_tire_friction_velo_target (c : CarState) (m fd : ℝ) :
    (calculate_tire_friction c m fd).velo_target = c.velo_target := by unfold calculate_tire_friction; cases c.tire_params <;> rfl
@[simp] theorem calculate_tire_friction_tire_FL (c : CarState) (m fd : ℝ) :
    (calculate_tire_friction c m fd).tire_FL = c.tire_FL := by unfold calculate_tire_friction; cases c.tire_params <;> rfl
@[simp] theorem calculate_tire_friction_tire_FR (c : CarState) (m fd : ℝ) :
    (calculate_tire_friction c m fd).tire_FR = c.tire_FR := by unfold calculate_tire_friction; cases c.tire_params <;> rfl
@[simp] theorem calculate_tire_friction_tire_RL (c : CarState) (m fd : ℝ) :
    (calculate_tire_friction c m fd).tire_RL = c.tire_RL := by unfold calculate_tire_friction; cases c.tire_params <;> rfl
@[simp] theorem calculate_tire_friction_tire_RR (c : CarState) (m fd : ℝ) :
    (calculate_tire_friction c m fd).tire_RR = c.tire_RR := by unfold calculate_tire_friction; cases c.tire_params <;> rfl
@[simp] theorem calculate_tire_friction_brake_FL_C (c : CarState) (m fd : ℝ) :
    (calculate_tire_friction c m fd).brake_FL_C = c.brake_FL_C := by unfold calculate_tire_friction; cases c.tire_params <;> rfl
@[simp] theorem calculate_tire_friction_brake_FR_C (c : CarState) (m fd : ℝ) :
    (calculate_tire_friction c m fd).brake_FR_C = c.brake_FR_C := by unfold calculate_tire_friction; cases c.tire_params <;> rfl
@[simp] theorem calculate_tire_friction_brake_RL_C (c : CarState) (m fd : ℝ) :
    (calculate_tire_friction c m fd).brake_RL_C = c.brake_RL_C := by unfold calculate_tire_friction; cases c.tire_params <;> rfl
@[simp] theorem calculate_tire_friction_brake_RR_C (c : CarState) (m fd : ℝ) :
    (calculate_tire_friction c m fd).brake_RR_C = c.brake_RR_C := by unfold calculate_tire_friction; cases c.tire_params <;> rfl
@[simp] theorem calculate_tire_friction_tire_params (c : CarState) (m fd : ℝ) :
    (calculate_tire_friction c m fd).tire_params = c.tire_params := by unfold calculate_tire_friction; cases c.tire_params <;> rfl
@[simp] theorem calculate_tire_friction_aero_params (c : CarState) (m fd : ℝ) :
    (calculate_tire_friction c m fd).aero_params = c.aero_params := by unfold calculate_tire_friction; cases c.tire_params <;> rfl
@[simp] theorem calculate_tire_friction_engine_params (c : CarState) (m fd : ℝ) :
    (calculate_tire_friction c m fd).engine_params = c.engine_params := by unfold calculate_tire_friction; cases c.tire_params <;> rfl
@[simp] theorem calculate_tire_friction_brake_params (c : CarState) (m fd : ℝ) :
    (calculate_tire_friction c m fd).brake_params = c.brake_params := by unfold calculate_tire_friction; cases c.tire_params <;> rfl
@[simp] theorem calculate_tire_friction_throttle (c : CarState) (m fd : ℝ) :
    (calculate_tire_friction c m fd).throttle = c.throttle := by unfold calculate_tire_friction; cases c.tire_params <;> rfl
@[simp] theorem calculate_tire_friction_brake (c : CarState) (m fd : ℝ) :
    (calculate_tire_friction c m fd).brake = c.brake := by unfold calculate_tire_friction; cases c.tire_params <;> rfl
@[simp] theorem calculate_tire_friction_rpm (c : CarState) (m fd : ℝ) :
    (calculate_tire_friction c m fd).rpm = c.rpm := by unfold calculate_tire_friction; cases c.tire_params <;> rfl
@[simp] theorem calculate_tire_friction_gear (c : CarState) (m fd : ℝ) :
    (calculate_tire_friction c m fd).gear = c.gear := by unfold calculate_tire_friction; cases c.tire_params <;> rfl
@[simp] theorem calculate_tire_friction_shift_timer (c : CarState) (m fd : ℝ) :
    (calculate_tire_friction c m fd).shift_timer = c.shift_timer := by unfold calculate_tire_friction; cases c.tire_params <;> rfl
@[simp] theorem calculate_tire_friction_active_corner_start (c : CarState) (m fd : ℝ) :
    (calculate_tire_friction c m fd).active_corner_start = c.active_corner_start := by unfold calculate_tire_friction; cases c.tire_params <;> rfl
@[simp] theorem calculate_tire_friction_active_corner_apex (c : CarState) (m fd : ℝ) :
    (calculate_tire_friction c m fd).active_corner_apex = c.active_corner_apex := by unfold calculate_tire_friction; cases c.tire_params <;> rfl
@[simp] theorem calculate_tire_friction_active_corner_exit (c : CarState) (m fd : ℝ) :
    (calculate_tire_friction c m fd).active_corner_exit = c.active_corner_exit := by unfold calculate_tire_friction; cases c.tire_params <;> rfl
@[simp] theorem calculate_tire_friction_past_apex (c : CarState) (m fd : ℝ) :
    (calculate_tire_friction c m fd).past_apex = c.past_apex := by unfold calculate_tire_friction; cases c.tire_params <;> rfl
@[simp] theorem calculate_brake_demand_car_id (c : CarState) (d a : ℝ) :
    ((calculate_brake_demand c d a).1).car_id = c.car_id := by unfold calculate_brake_demand; dsimp only; split_ifs <;> rfl
@[simp] theorem calculate_brake_demand_carSpec (c : CarState) (d a : ℝ) :
    ((calculate_brake_demand c d a).1).carSpec = c.carSpec := by unfold calculate_brake_demand; dsimp only; split_ifs <;> rfl
@[simp] theorem calculate_brake_demand_velocity_mps (c : CarState) (d a : ℝ) :
    ((calculate_brake_demand c d a).1).velocity_mps = c.velocity_mps := by unfold calculate_brake_demand; dsimp only; split_ifs <;> rfl
@[simp] theorem calculate_brake_demand_track_position (c : CarState) (d a : ℝ) :
    ((calculate_brake_demand c d a).1).track_position = c.track_position := by unfold calculate_brake_demand; dsimp only; split_ifs <;> rfl
@[simp] theorem calculate_brake_demand_acceleration_mps (c : CarState) (d a : ℝ) :
    ((calculate_brake_demand c d a).1).acceleration_mps = c.acceleration_mps := by unfold calculate_brake_demand; dsimp only; split_ifs <;> rfl
@[simp] theorem calculate_brake_demand_laps (c : CarState) (d a : ℝ) :
    ((calculate_brake_demand c d a).1).laps = c.laps := by unfold calculate_brake_demand; dsimp only; split_ifs <;> rfl
@[simp] theorem calculate_brake_demand_lap_start_time (c : CarState) (d a : ℝ) :
    ((calculate_brake_demand c d a).1).lap_start_time = c.lap_start_time := by unfold calculate_brake_demand; dsimp only; split_ifs <;> rfl
@[simp] theorem calculate_brake_demand_best_lap (c : CarState) (d a : ℝ) :
    ((calculate_brake_demand c d a).1).best_lap = c.best_lap := by unfold calculate_brake_demand; dsimp only; split_ifs <;> rfl
@[simp] theorem calculate_brake_demand_braking_zone (c : CarState) (d a : ℝ) :
    ((calculate_brake_demand c d a).1).braking_zone = c.braking_zone := by unfold calculate_brake_demand; dsimp only; split_ifs <;> rfl
@[simp] theorem calculate_brake_demand_velo_target (c : CarState) (d a : ℝ) :
    ((calculate_brake_demand c d a).1).velo_target = c.velo_target := by unfold calculate_brake_demand; dsimp only; split_ifs <;> rfl
@[simp] theorem calculate_brake_demand_tire_FL (c : CarState) (d a : ℝ) :
    ((calculate_brake_demand c d a).1).tire_FL = c.tire_FL := by unfold calculate_brake_demand; dsimp only; split_ifs <;> rfl
@[simp] theorem calculate_brake_demand_tire_FR (c : CarState) (d a : ℝ) :
    ((calculate_brake_demand c d a).1).tire_FR = c.tire_FR := by unfold calculate_brake_demand; dsimp only; split_ifs <;> rfl
@[simp] theorem calculate_brake_demand_tire_RL (c : CarState) (d a : ℝ) :
    ((calculate_brake_demand c d a).1).tire_RL = c.tire_RL := by unfold calculate_brake_demand; dsimp only; split_ifs <;> rfl
@[simp] theorem calculate_brake_demand_tire_RR (c : CarState) (d a : ℝ) :
    ((calculate_brake_demand c d a).1).tire_RR = c.tire_RR := by unfold calculate_brake_demand; dsimp only; split_ifs <;> rfl
@[simp] theorem calculate_brake_demand_brake_FL_C (c : CarState) (d a : ℝ) :
    ((calculate_brake_demand c d a).1).brake_FL_C = c.brake_FL_C := by unfold calculate_brake_demand; dsimp only; split_ifs <;> rfl
@[simp] theorem calculate_brake_demand_brake_FR_C (c : CarState) (d a : ℝ) :
    ((calculate_brake_demand c d a).1).brake_FR_C = c.brake_FR_C := by unfold calculate_brake_demand; dsimp only; split_ifs <;> rfl
@[simp] theorem calculate_brake_demand_brake_RL_C (c : CarState) (d a : ℝ) :
    ((calculate_brake_demand c d a).1).brake_RL_C = c.brake_RL_C := by unfold calculate_brake_demand; dsimp only; split_ifs <;> rfl
@[simp] theorem calculate_brake_demand_brake_RR_C (c : CarState) (d a : ℝ) :
    ((calculate_brake_demand c d a).1).brake_RR_C = c.brake_RR_C := by unfold calculate_brake_demand; dsimp only; split_ifs <;> rfl
@[simp] theorem calculate_brake_demand_tire_params (c : CarState) (d a : ℝ) :
    ((calculate_brake_demand c d a).1).tire_params = c.tire_params := by unfold calculate_brake_demand; dsimp only; split_ifs <;> rfl
@[simp] theorem calculate_brake_demand_aero_params (c : CarState) (d a : ℝ) :
    ((calculate_brake_demand c d a).1).aero_params = c.aero_params := by unfold calculate_brake_demand; dsimp only; split_ifs <;> rfl
@[simp] theorem calculate_brake_demand_engine_params (c : CarState) (d a : ℝ) :
    ((calculate_brake_demand c d a).1).engine_params = c.engine_params := by unfold calculate_brake_demand; dsimp only; split_ifs <;> rfl
@[simp] theorem calculate_brake_demand_brake_params (c : CarState) (d a : ℝ) :
    ((calculate_brake_demand c d a).1).brake_params = c.brake_params := by unfold calculate_brake_demand; dsimp only; split_ifs <;> rfl
@[simp] theorem calculate_brake_demand_mu_effective (c : CarState) (d a : ℝ) :
    ((calculate_brake_demand c d a).1).mu_effective = c.mu_effective := by unfold calculate_brake_demand; dsimp only; split_ifs <;> rfl
@[simp] theorem calculate_brake_demand_throttle (c : CarState) (d a : ℝ) :
    ((calculate_brake_demand c d a).1).throttle = c.throttle := by unfold calculate_brake_demand; dsimp only; split_ifs <;> rfl
@[simp] theorem calculate_brake_demand_brake (c : CarState) (d a : ℝ) :
    ((calculate_brake_demand c d a).1).brake = c.brake := by unfold calculate_brake_demand; dsimp only; split_ifs <;> rfl
@[simp] theorem calculate_brake_demand_rpm (c : CarState) (d a : ℝ) :
    ((calculate_brake_demand c d a).1).rpm = c.rpm := by unfold calculate_brake_demand; dsimp only; split_ifs <;> rfl
@[simp] theorem calculate_brake_demand_gear (c : CarState) (d a : ℝ) :
    ((calculate_brake_demand c d a).1).gear = c.gear := by unfold calculate_brake_demand; dsimp only; split_ifs <;> rfl
@[simp] theorem calculate_brake_demand_shift_timer (c : CarState) (d a : ℝ) :
    ((calculate_brake_demand c d a).1).shift_timer = c.shift_timer := by unfold calculate_brake_demand; dsimp only; split_ifs <;> rfl
@[simp] theorem calculate_brake_demand_active_corner_start (c : CarState) (d a : ℝ) :
    ((calculate_brake_demand c d a).1).active_corner_start = c.active_corner_start := by unfold calculate_brake_demand; dsimp only; split_ifs <;> rfl
@[simp] theorem calculate_brake_demand_active_corner_apex (c : CarState) (d a : ℝ) :
    ((calculate_brake_demand c d a).1).active_corner_apex = c.active_corner_apex := by unfold calculate_brake_demand; dsimp only; split_ifs <;> rfl
@[simp] theorem calculate_brake_demand_active_corner_exit (c : CarState) (d a : ℝ) :
    ((calculate_brake_demand c d a).1).active_corner_exit = c.active_corner_exit := by unfold calculate_brake_demand; dsimp only; split_ifs <;> rfl
@[simp] theorem calculate_brake_demand_past_apex (c : CarState) (d a : ℝ) :
    ((calculate_brake_demand c d a).1).past_apex = c.past_apex := by unfold calculate_brake_demand; dsimp only; split_ifs <;> rfl

@[simp] theorem update_throttle_and_brake_car_id (c : CarState) (d a : ℝ) :
    (update_throttle_and_brake c d a).car_id = c.car_id := by simp [update_throttle_and_brake]
@[simp] theorem update_throttle_and_brake_carSpec (c : CarState) (d a : ℝ) :
    (update_throttle_and_brake c d a).carSpec = c.carSpec := by simp [update_throttle_and_brake]
@[simp] theorem update_throttle_and_brake_velocity_mps (c : CarState) (d a : ℝ) :
    (update_throttle_and_brake c d a).velocity_mps = c.velocity_mps := by simp [update_throttle_and_brake]
@[simp] theorem update_throttle_and_brake_track_position (c : CarState) (d a : ℝ) :
    (update_throttle_and_brake c d a).track_position = c.track_position := by simp [update_throttle_and_brake]
@[simp] theorem update_throttle_and_brake_acceleration_mps (c : CarState) (d a : ℝ) :
    (update_throttle_and_brake c d a).acceleration_mps = c.acceleration_mps := by simp [update_throttle_and_brake]
@[simp] theorem update_throttle_and_brake_laps (c : CarState) (d a : ℝ) :
    (update_throttle_and_brake c d a).laps = c.laps := by simp [update_throttle_and_brake]
@[simp] theorem update_throttle_and_brake_lap_start_time (c : CarState) (d a : ℝ) :
    (update_throttle_and_brake c d a).lap_start_time = c.lap_start_time := by simp [update_throttle_and_brake]
@[simp] theorem update_throttle_and_brake_best_lap (c : CarState) (d a : ℝ) :
    (update_throttle_and_brake c d a).best_lap = c.best_lap := by simp [update_throttle_and_brake]
@[simp] theorem update_throttle_and_brake_braking_zone (c : CarState) (d a : ℝ) :
    (update_throttle_and_brake c d a).braking_zone = c.braking_zone := by simp [update_throttle_and_brake]
@[simp] theorem update_throttle_and_brake_velo_target (c : CarState) (d a : ℝ) :
    (update_throttle_and_brake c d a).velo_target = c.velo_target := by simp [update_throttle_and_brake]
@[simp] theorem update_throttle_and_brake_tire_FL (c : CarState) (d a : ℝ) :
    (update_throttle_and_brake c d a).tire_FL = c.tire_FL := by simp [update_throttle_and_brake]
@[simp] theorem update_throttle_and_brake_tire_FR (c : CarState) (d a : ℝ) :
    (update_throttle_and_brake c d a).tire_FR = c.tire_FR := by simp [update_throttle_and_brake]
@[simp] theorem update_throttle_and_brake_tire_RL (c : CarState) (d a : ℝ) :
    (update_throttle_and_brake c d a).tire_RL = c.tire_RL := by simp [update_throttle_and_brake]
@[simp] theorem update_throttle_and_brake_tire_RR (c : CarState) (d a : ℝ) :
    (update_throttle_and_brake c d a).tire_RR = c.tire_RR := by simp [update_throttle_and_brake]
@[simp] theorem update_throttle_and_brake_brake_FL_C (c : CarState) (d a : ℝ) :
    (update_throttle_and_brake c d a).brake_FL_C = c.brake_FL_C := by simp [update_throttle_and_brake]
@[simp] theorem update_throttle_and_brake_brake_FR_C (c : CarState) (d a : ℝ) :
    (update_throttle_and_brake c d a).brake_FR_C = c.brake_FR_C := by simp [update_throttle_and_brake]
@[simp] theorem update_throttle_and_brake_brake_RL_C (c : CarState) (d a : ℝ) :
    (update_throttle_and_brake c d a).brake_RL_C = c.brake_RL_C := by simp [update_throttle_and_brake]
@[simp] theorem update_throttle_and_brake_brake_RR_C (c : CarState) (d a : ℝ) :
    (update_throttle_and_brake c d a).brake_RR_C = c.brake_RR_C := by simp [update_throttle_and_brake]
@[simp] theorem update_throttle_and_brake_tire_params (c : CarState) (d a : ℝ) :
    (update_throttle_and_brake c d a).tire_params = c.tire_params := by simp [update_throttle_and_brake]
@[simp] theorem update_throttle_and_brake_aero_params (c : CarState) (d a : ℝ) :
    (update_throttle_and_brake c d a).aero_params = c.aero_params := by simp [update_throttle_and_brake]
@[simp] theorem update_throttle_and_brake_engine_params (c : CarState) (d a : ℝ) :
    (update_throttle_and_brake c d a).engine_params = c.engine_params := by simp [update_throttle_and_brake]
@[simp] theorem update_throttle_and_brake_brake_params (c : CarState) (d a : ℝ) :
    (update_throttle_and_brake c d a).brake_params = c.brake_params := by simp [update_throttle_and_brake]
@[simp] theorem update_throttle_and_brake_mu_effective (c : CarState) (d a : ℝ) :
    (update_throttle_and_brake c d a).mu_effective = c.mu_effective := by simp [update_throttle_and_brake]
@[simp] theorem update_throttle_and_brake_rpm (c : CarState) (d a : ℝ) :
    (update_throttle_and_brake c d a).rpm = c.rpm := by simp [update_throttle_and_brake]
@[simp] theorem update_throttle_and_brake_gear (c : CarState) (d a : ℝ) :
    (update_throttle_and_brake c d a).gear = c.gear := by simp [update_throttle_and_brake]
@[simp] theorem update_throttle_and_brake_shift_timer (c : CarState) (d a : ℝ) :
    (update_throttle_and_brake c d a).shift_timer = c.shift_timer := by simp [update_throttle_and_brake]
@[simp] theorem update_throttle_and_brake_active_corner_start (c : CarState) (d a : ℝ) :
    (update_throttle_and_brake c d a).active_corner_start = c.active_corner_start := by simp [update_throttle_and_brake]
@[simp] theorem update_throttle_and_brake_active_corner_apex (c : CarState) (d a : ℝ) :
    (update_throttle_and_brake c d a).active_corner_apex = c.active_corner_apex := by simp [update_throttle_and_brake]
@[simp] theorem update_throttle_and_brake_active_corner_exit (c : CarState) (d a : ℝ) :
    (update_throttle_and_brake c d a).active_corner_exit = c.active_corner_exit := by simp [update_throttle_and_brake]
@[simp] theorem update_gear_and_rpm_car_id (c : CarState) (ep : ResolvedEngineParams) (dt : ℝ) :
    (update_gear_and_rpm c ep dt).car_id = c.car_id := by simp only [update_gear_and_rpm]; split_ifs <;> rfl
@[simp] theorem update_gear_and_rpm_carSpec (c : CarState) (ep : ResolvedEngineParams) (dt : ℝ) :
    (update_gear_and_rpm c ep dt).carSpec = c.carSpec := by simp only [update_gear_and_rpm]; split_ifs <;> rfl
@[simp] theorem update_gear_and_rpm_velocity_mps (c : CarState) (ep : ResolvedEngineParams) (dt : ℝ) :
    (update_gear_and_rpm c ep dt).velocity_mps = c.velocity_mps := by simp only [update_gear_and_rpm]; split_ifs <;> rfl
@[simp] theorem update_gear_and_rpm_track_position (c : CarState) (ep : ResolvedEngineParams) (dt : ℝ) :
    (update_gear_and_rpm c ep dt).track_position = c.track_position := by simp only [update_gear_and_rpm]; split_ifs <;> rfl
@[simp] theorem update_gear_and_rpm_acceleration_mps (c : CarState) (ep : ResolvedEngineParams) (dt : ℝ) :
    (update_gear_and_rpm c ep dt).acceleration_mps = c.acceleration_mps := by simp only [update_gear_and_rpm]; split_ifs <;> rfl
@[simp] theorem update_gear_and_rpm_laps (c : CarState) (ep : ResolvedEngineParams) (dt : ℝ) :
    (update_gear_and_rpm c ep dt).laps = c.laps := by simp only [update_gear_and_rpm]; split_ifs <;> rfl
@[simp] theorem update_gear_and_rpm_lap_start_time (c : CarState) (ep : ResolvedEngineParams) (dt : ℝ) :
    (update_gear_and_rpm c ep dt).lap_start_time = c.lap_start_time := by simp only [update_gear_and_rpm]; split_ifs <;> rfl
@[simp] theorem update_gear_and_rpm_best_lap (c : CarState) (ep : ResolvedEngineParams) (dt : ℝ) :
    (update_gear_and_rpm c ep dt).best_lap = c.best_lap := by simp only [update_gear_and_rpm]; split_ifs <;> rfl
@[simp] theorem update_gear_and_rpm_braking_zone (c : CarState) (ep : ResolvedEngineParams) (dt : ℝ) :
    (update_gear_and_rpm c ep dt).braking_zone = c.braking_zone := by simp only [update_gear_and_rpm]; split_ifs <;> rfl
@[simp] theorem update_gear_and_rpm_braking_meter (c : CarState) (ep : ResolvedEngineParams) (dt : ℝ) :
    (update_gear_and_rpm c ep dt).braking_meter = c.braking_meter := by simp only [update_gear_and_rpm]; split_ifs <;> rfl
@[simp] theorem update_gear_and_rpm_velo_target (c : CarState) (ep : ResolvedEngineParams) (dt : ℝ) :
    (update_gear_and_rpm c ep dt).velo_target = c.velo_target := by simp only [update_gear_and_rpm]; split_ifs <;> rfl
@[simp] theorem update_gear_and_rpm_tire_FL (c : CarState) (ep : ResolvedEngineParams) (dt : ℝ) :
    (update_gear_and_rpm c ep dt).tire_FL = c.tire_FL := by simp only [update_gear_and_rpm]; split_ifs <;> rfl
@[simp] theorem update_gear_and_rpm_tire_FR (c : CarState) (ep : ResolvedEngineParams) (dt : ℝ) :
    (update_gear_and_rpm c ep dt).tire_FR = c.tire_FR := by simp only [update_gear_and_rpm]; split_ifs <;> rfl
@[simp] theorem update_gear_and_rpm_tire_RL (c : CarState) (ep : ResolvedEngineParams) (dt : ℝ) :
    (update_gear_and_rpm c ep dt).tire_RL = c.tire_RL := by simp only [update_gear_and_rpm]; split_ifs <;> rfl
@[simp] theorem update_gear_and_rpm_tire_RR (c : CarState) (ep : ResolvedEngineParams) (dt : ℝ) :
    (update_gear_and_rpm c ep dt).tire_RR = c.tire_RR := by simp only [update_gear_and_rpm]; split_ifs <;> rfl
@[simp] theorem update_gear_and_rpm_brake_FL_C (c : CarState) (ep : ResolvedEngineParams) (dt : ℝ) :
    (update_gear_and_rpm c ep dt).brake_FL_C = c.brake_FL_C := by simp only [update_gear_and_rpm]; split_ifs <;> rfl
@[simp] theorem update_gear_and_rpm_brake_FR_C (c : CarState) (ep : ResolvedEngineParams) (dt : ℝ) :
    (update_gear_and_rpm c ep dt).brake_FR_C = c.brake_FR_C := by simp only [update_gear_and_rpm]; split_ifs <;> rfl
@[simp] theorem update_gear_and_rpm_brake_RL_C (c : CarState) (ep : ResolvedEngineParams) (dt : ℝ) :
    (update_gear_and_rpm c ep dt).brake_RL_C = c.brake_RL_C := by simp only [update_gear_and_rpm]; split_ifs <;> rfl
@[simp] theorem update_gear_and_rpm_brake_RR_C (c : CarState) (ep : ResolvedEngineParams) (dt : ℝ) :
    (update_gear_and_rpm c ep dt).brake_RR_C = c.brake_RR_C := by simp only [update_gear_and_rpm]; split_ifs <;> rfl
@[simp] theorem update_gear_and_rpm_tire_params (c : CarState) (ep : ResolvedEngineParams) (dt : ℝ) :
    (update_gear_and_rpm c ep dt).tire_params = c.tire_params := by simp only [update_gear_and_rpm]; split_ifs <;> rfl
@[simp] theorem update_gear_and_rpm_aero_params (c : CarState) (ep : ResolvedEngineParams) (dt : ℝ) :
    (update_gear_and_rpm c ep dt).aero_params = c.aero_params := by simp only [update_gear_and_rpm]; split_ifs <;> rfl
@[simp] theorem update_gear_and_rpm_engine_params (c : CarState) (ep : ResolvedEngineParams) (dt : ℝ) :
    (update_gear_and_rpm c ep dt).engine_params = c.engine_params := by simp only [update_gear_and_rpm]; split_ifs <;> rfl
@[simp] theorem update_gear_and_rpm_brake_params (c : CarState) (ep : ResolvedEngineParams) (dt : ℝ) :
    (update_gear_and_rpm c ep dt).brake_params = c.brake_params := by simp only [update_gear_and_rpm]; split_ifs <;> rfl
@[simp] theorem update_gear_and_rpm_mu_effective (c : CarState) (ep : ResolvedEngineParams) (dt : ℝ) :
    (update_gear_and_rpm c ep dt).mu_effective = c.mu_effective := by simp only [update_gear_and_rpm]; split_ifs <;> rfl
@[simp] theorem update_gear_and_rpm_throttle (c : CarState) (ep : ResolvedEngineParams) (dt : ℝ) :
    (update_gear_and_rpm c ep dt).throttle = c.throttle := by simp only [update_gear_and_rpm]; split_ifs <;> rfl
@[simp] theorem update_gear_and_rpm_brake (c : CarState) (ep : ResolvedEngineParams) (dt : ℝ) :
    (update_gear_and_rpm c ep dt).brake = c.brake := by simp only [update_gear_and_rpm]; split_ifs <;> rfl
@[simp] theorem update_gear_and_rpm_active_corner_start (c : CarState) (ep : ResolvedEngineParams) (dt : ℝ) :
    (update_gear_and_rpm c ep dt).active_corner_start = c.active_corner_start := by simp only [update_gear_and_rpm]; split_ifs <;> rfl
@[simp] theorem update_gear_and_rpm_active_corner_apex (c : CarState) (ep : ResolvedEngineParams) (dt : ℝ) :
    (update_gear_and_rpm c ep dt).active_corner_apex = c.active_corner_apex := by simp only [update_gear_and_rpm]; split_ifs <;> rfl
@[simp] theorem update_gear_and_rpm_active_corner_exit (c : CarState) (ep : ResolvedEngineParams) (dt : ℝ) :
    (update_gear_and_rpm c ep dt).active_corner_exit = c.active_corner_exit := by simp only [update_gear_and_rpm]; split_ifs <;> rfl
@[simp] theorem update_gear_and_rpm_past_apex (c : CarState) (ep : ResolvedEngineParams) (dt : ℝ) :
    (update_gear_and_rpm c ep dt).past_apex = c.past_apex := by simp only [update_gear_and_rpm]; split_ifs <;> rfl
@[simp] theorem apply_tire_heating_and_wear_car_id (c : CarState) (dt : ℝ) (ep : EngineParams) :
    (apply_tire_heating_and_wear c dt ep).car_id = c.car_id := by simp only [apply_tire_heating_and_wear]; split_ifs <;> rfl
@[simp] theorem apply_tire_heating_and_wear_carSpec (c : CarState) (dt : ℝ) (ep : EngineParams) :
    (apply_tire_heating_and_wear c dt ep).carSpec = c.carSpec := by simp only [apply_tire_heating_and_wear]; split_ifs <;> rfl
@[simp] theorem apply_tire_heating_and_wear_velocity_mps (c : CarState) (dt : ℝ) (ep : EngineParams) :
    (apply_tire_heating_and_wear c dt ep).velocity_mps = c.velocity_mps := by simp only [apply_tire_heating_and_wear]; split_ifs <;> rfl
@[simp] theorem apply_tire_heating_and_wear_track_position (c : CarState) (dt : ℝ) (ep : EngineParams) :
    (apply_tire_heating_and_wear c dt ep).track_position = c.track_position := by simp only [apply_tire_heating_and_wear]; split_ifs <;> rfl
@[simp] theorem apply_tire_heating_and_wear_acceleration_mps (c : CarState) (dt : ℝ) (ep : EngineParams) :
    (apply_tire_heating_and_wear c dt ep).acceleration_mps = c.acceleration_mps := by simp only [apply_tire_heating_and_wear]; split_ifs <;> rfl
@[simp] theorem apply_tire_heating_and_wear_laps (c : CarState) (dt : ℝ) (ep : EngineParams) :
    (apply_tire_heating_and_wear c dt ep).laps = c.laps := by simp only [apply_tire_heating_and_wear]; split_ifs <;> rfl
@[simp] theorem apply_tire_heating_and_wear_lap_start_time (c : CarState) (dt : ℝ) (ep : EngineParams) :
    (apply_tire_heating_and_wear c dt ep).lap_start_time = c.lap_start_time := by simp only [apply_tire_heating_and_wear]; split_ifs <;> rfl
@[simp] theorem apply_tire_heating_and_wear_best_lap (c : CarState) (dt : ℝ) (ep : EngineParams) :
    (apply_tire_heating_and_wear c dt ep).best_lap = c.best_lap := by simp only [apply_tire_heating_and_wear]; split_ifs <;> rfl
@[simp] theorem apply_tire_heating_and_wear_braking_zone (c : CarState) (dt : ℝ) (ep : EngineParams) :
    (apply_tire_heating_and_wear c dt ep).braking_zone = c.braking_zone := by simp only [apply_tire_heating_and_wear]; split_ifs <;> rfl
@[simp] theorem apply_tire_heating_and_wear_braking_meter (c : CarState) (dt : ℝ) (ep : EngineParams) :
    (apply_tire_heating_and_wear c dt ep).braking_meter = c.braking_meter := by simp only [apply_tire_heating_and_wear]; split_ifs <;> rfl
@[simp] theorem apply_tire_heating_and_wear_velo_target (c : CarState) (dt : ℝ) (ep : EngineParams) :
    (apply_tire_heating_and_wear c dt ep).velo_target = c.velo_target := by simp only [apply_tire_heating_and_wear]; split_ifs <;> rfl
@[simp] theorem apply_tire_heating_and_wear_brake_FL_C (c : CarState) (dt : ℝ) (ep : EngineParams) :
    (apply_tire_heating_and_wear c dt ep).brake_FL_C = c.brake_FL_C := by simp only [apply_tire_heating_and_wear]; split_ifs <;> rfl
@[simp] theorem apply_tire_heating_and_wear_brake_FR_C (c : CarState) (dt : ℝ) (ep : EngineParams) :
    (apply_tire_heating_and_wear c dt ep).brake_FR_C = c.brake_FR_C := by simp only [apply_tire_heating_and_wear]; split_ifs <;> rfl
@[simp] theorem apply_tire_heating_and_wear_brake_RL_C (c : CarState) (dt : ℝ) (ep : EngineParams) :
    (apply_tire_heating_and_wear c dt ep).brake_RL_C = c.brake_RL_C := by simp only [apply_tire_heating_and_wear]; split_ifs <;> rfl
@[simp] theorem apply_tire_heating_and_wear_brake_RR_C (c : CarState) (dt : ℝ) (ep : EngineParams) :
    (apply_tire_heating_and_wear c dt ep).brake_RR_C = c.brake_RR_C := by simp only [apply_tire_heating_and_wear]; split_ifs <;> rfl
@[simp] theorem apply_tire_heating_and_wear_tire_params (c : CarState) (dt : ℝ) (ep : EngineParams) :
    (apply_tire_heating_and_wear c dt ep).tire_params = c.tire_params := by simp only [apply_tire_heating_and_wear]; split_ifs <;> rfl
@[simp] theorem apply_tire_heating_and_wear_aero_params (c : CarState) (dt : ℝ) (ep : EngineParams) :
    (apply_tire_heating_and_wear c dt ep).aero_params = c.aero_params := by simp only [apply_tire_heating_and_wear]; split_ifs <;> rfl
@[simp] theorem apply_tire_heating_and_wear_engine_params (c : CarState) (dt : ℝ) (ep : EngineParams) :
    (apply_tire_heating_and_wear c dt ep).engine_params = c.engine_params := by simp only [apply_tire_heating_and_wear]; split_ifs <;> rfl
@[simp] theorem apply_tire_heating_and_wear_brake_params (c : CarState) (dt : ℝ) (ep : EngineParams) :
    (apply_tire_heating_and_wear c dt ep).brake_params = c.brake_params := by simp only [apply_tire_heating_and_wear]; split_ifs <;> rfl
@[simp] theorem apply_tire_heating_and_wear_mu_effective (c : CarState) (dt : ℝ) (ep : EngineParams) :
    (apply_tire_heating_and_wear c dt ep).mu_effective = c.mu_effective := by simp only [apply_tire_heating_and_wear]; split_ifs <;> rfl
@[simp] theorem apply_tire_heating_and_wear_throttle (c : CarState) (dt : ℝ) (ep : EngineParams) :
    (apply_tire_heating_and_wear c dt ep).throttle = c.throttle := by simp only [apply_tire_heating_and_wear]; split_ifs <;> rfl
@[simp] theorem apply_tire_heating_and_wear_brake (c : CarState) (dt : ℝ) (ep : EngineParams) :
    (apply_tire_heating_and_wear c dt ep).brake = c.brake := by simp only [apply_tire_heating_and_wear]; split_ifs <;> rfl
@[simp] theorem apply_tire_heating_and_wear_rpm (c : CarState) (dt : ℝ) (ep : EngineParams) :
    (apply_tire_heating_and_wear c dt ep).rpm = c.rpm := by simp only [apply_tire_heating_and_wear]; split_ifs <;> rfl
@[simp] theorem apply_tire_heating_and_wear_gear (c : CarState) (dt : ℝ) (ep : EngineParams) :
    (apply_tire_heating_and_wear c dt ep).gear = c.gear := by simp only [apply_tire_heating_and_wear]; split_ifs <;> rfl
@[simp] theorem apply_tire_heating_and_wear_shift_timer (c : CarState) (dt : ℝ) (ep : EngineParams) :
    (apply_tire_heating_and_wear c dt ep).shift_timer = c.shift_timer := by simp only [apply_tire_heating_and_wear]; split_ifs <;> rfl
@[simp] theorem apply_tire_heating_and_wear_active_corner_start (c : CarState) (dt : ℝ) (ep : EngineParams) :
    (apply_tire_heating_and_wear c dt ep).active_corner_start = c.active_corner_start := by simp only [apply_tire_heating_and_wear]; split_ifs <;> rfl
@[simp] theorem apply_tire_heating_and_wear_active_corner_apex (c : CarState) (dt : ℝ) (ep : EngineParams) :
    (apply_tire_heating_and_wear c dt ep).active_corner_apex = c.active_corner_apex := by simp only [apply_tire_heating_and_wear]; split_ifs <;> rfl
@[simp] theorem apply_tire_heating_and_wear_active_corner_exit (c : CarState) (dt : ℝ) (ep : EngineParams) :
    (apply_tire_heating_and_wear c dt ep).active_corner_exit = c.active_corner_exit := by simp only [apply_tire_heating_and_wear]; split_ifs <;> rfl
@[simp] theorem apply_tire_heating_and_wear_past_apex (c : CarState) (dt : ℝ) (ep : EngineParams) :
    (apply_tire_heating_and_wear c dt ep).past_apex = c.past_apex := by simp only [apply_tire_heating_and_wear]; split_ifs <;> rfl
@[simp] theorem apply_brake_heating_and_cooling_car_id (c : CarState) (dt : ℝ) (ep : EngineParams) :
    (apply_brake_heating_and_cooling c dt ep).car_id = c.car_id := by simp only [apply_brake_heating_and_cooling]; split_ifs <;> rfl
@[simp] theorem apply_brake_heating_and_cooling_carSpec (c : CarState) (dt : ℝ) (ep : EngineParams) :
    (apply_brake_heating_and_cooling c dt ep).carSpec = c.carSpec := by simp only [apply_brake_heating_and_cooling]; split_ifs <;> rfl
@[simp] theorem apply_brake_heating_and_cooling_velocity_mps (c : CarState) (dt : ℝ) (ep : EngineParams) :
    (apply_brake_heating_and_cooling c dt ep).velocity_mps = c.velocity_mps := by simp only [apply_brake_heating_and_cooling]; split_ifs <;> rfl
@[simp] theorem apply_brake_heating_and_cooling_track_position (c : CarState) (dt : ℝ) (ep : EngineParams) :
    (apply_brake_heating_and_cooling c dt ep).track_position = c.track_position := by simp only [apply_brake_heating_and_cooling]; split_ifs <;> rfl
@[simp] theorem apply_brake_heating_and_cooling_acceleration_mps (c : CarState) (dt : ℝ) (ep : EngineParams) :
    (apply_brake_heating_and_cooling c dt ep).acceleration_mps = c.acceleration_mps := by simp only [apply_brake_heating_and_cooling]; split_ifs <;> rfl
@[simp] theorem apply_brake_heating_and_cooling_laps (c : CarState) (dt : ℝ) (ep : EngineParams) :
    (apply_brake_heating_and_cooling c dt ep).laps = c.laps := by simp only [apply_brake_heating_and_cooling]; split_ifs <;> rfl
@[simp] theorem apply_brake_heating_and_cooling_lap_start_time (c : CarState) (dt : ℝ) (ep : EngineParams) :
    (apply_brake_heating_and_cooling c dt ep).lap_start_time = c.lap_start_time := by simp only [apply_brake_heating_and_cooling]; split_ifs <;> rfl
@[simp] theorem apply_brake_heating_and_cooling_best_lap (c : CarState) (dt : ℝ) (ep : EngineParams) :
    (apply_brake_heating_and_cooling c dt ep).best_lap = c.best_lap := by simp only [apply_brake_heating_and_cooling]; split_ifs <;> rfl
@[simp] theorem apply_brake_heating_and_cooling_braking_zone (c : CarState) (dt : ℝ) (ep : EngineParams) :
    (apply_brake_heating_and_cooling c dt ep).braking_zone = c.braking_zone := by simp only [apply_brake_heating_and_cooling]; split_ifs <;> rfl
@[simp] theorem apply_brake_heating_and_cooling_braking_meter (c : CarState) (dt : ℝ) (ep : EngineParams) :
    (apply_brake_heating_and_cooling c dt ep).braking_meter = c.braking_meter := by simp only [apply_brake_heating_and_cooling]; split_ifs <;> rfl
@[simp] theorem apply_brake_heating_and_cooling_velo_target (c : CarState) (dt : ℝ) (ep : EngineParams) :
    (apply_brake_heating_and_cooling c dt ep).velo_target = c.velo_target := by simp only [apply_brake_heating_and_cooling]; split_ifs <;> rfl
@[simp] theorem apply_brake_heating_and_cooling_tire_FL (c : CarState) (dt : ℝ) (ep : EngineParams) :
    (apply_brake_heating_and_cooling c dt ep).tire_FL = c.tire_FL := by simp only [apply_brake_heating_and_cooling]; split_ifs <;> rfl
@[simp] theorem apply_brake_heating_and_cooling_tire_FR (c : CarState) (dt : ℝ) (ep : EngineParams) :
    (apply_brake_heating_and_cooling c dt ep).tire_FR = c.tire_FR := by simp only [apply_brake_heating_and_cooling]; split_ifs <;> rfl
@[simp] theorem apply_brake_heating_and_cooling_tire_RL (c : CarState) (dt : ℝ) (ep : EngineParams) :
    (apply_brake_heating_and_cooling c dt ep).tire_RL = c.tire_RL := by simp only [apply_brake_heating_and_cooling]; split_ifs <;> rfl
@[simp] theorem apply_brake_heating_and_cooling_tire_RR (c : CarState) (dt : ℝ) (ep : EngineParams) :
    (apply_brake_heating_and_cooling c dt ep).tire_RR = c.tire_RR := by simp only [apply_brake_heating_and_cooling]; split_ifs <;> rfl
@[simp] theorem apply_brake_heating_and_cooling_tire_params (c : CarState) (dt : ℝ) (ep : EngineParams) :
    (apply_brake_heating_and_cooling c dt ep).tire_params = c.tire_params := by simp only [apply_brake_heating_and_cooling]; split_ifs <;> rfl
@[simp] theorem apply_brake_heating_and_cooling_aero_params (c : CarState) (dt : ℝ) (ep : EngineParams) :
    (apply_brake_heating_and_cooling c dt ep).aero_params = c.aero_params := by simp only [apply_brake_heating_and_cooling]; split_ifs <;> rfl
@[simp] theorem apply_brake_heating_and_cooling_engine_params (c : CarState) (dt : ℝ) (ep : EngineParams) :
    (apply_brake_heating_and_cooling c dt ep).engine_params = c.engine_params := by simp only [apply_brake_heating_and_cooling]; split_ifs <;> rfl
@[simp] theorem apply_brake_heating_and_cooling_brake_params (c : CarState) (dt : ℝ) (ep : EngineParams) :
    (apply_brake_heating_and_cooling c dt ep).brake_params = c.brake_params := by simp only [apply_brake_heating_and_cooling]; split_ifs <;> rfl
@[simp] theorem apply_brake_heating_and_cooling_mu_effective (c : CarState) (dt : ℝ) (ep : EngineParams) :
    (apply_brake_heating_and_cooling c dt ep).mu_effective = c.mu_effective := by simp only [apply_brake_heating_and_cooling]; split_ifs <;> rfl
@[simp] theorem apply_brake_heating_and_cooling_throttle (c : CarState) (dt : ℝ) (ep : EngineParams) :
    (apply_brake_heating_and_cooling c dt ep).throttle = c.throttle := by simp only [apply_brake_heating_and_cooling]; split_ifs <;> rfl
@[simp] theorem apply_brake_heating_and_cooling_brake (c : CarState) (dt : ℝ) (ep : EngineParams) :
    (apply_brake_heating_and_cooling c dt ep).brake = c.brake := by simp only [apply_brake_heating_and_cooling]; split_ifs <;> rfl
@[simp] theorem apply_brake_heating_and_cooling_rpm (c : CarState) (dt : ℝ) (ep : EngineParams) :
    (apply_brake_heating_and_cooling c dt ep).rpm = c.rpm := by simp only [apply_brake_heating_and_cooling]; split_ifs <;> rfl
@[simp] theorem apply_brake_heating_and_cooling_gear (c : CarState) (dt : ℝ) (ep : EngineParams) :
    (apply_brake_heating_and_cooling c dt ep).gear = c.gear := by simp only [apply_brake_heating_and_cooling]; split_ifs <;> rfl
@[simp] theorem apply_brake_heating_and_cooling_shift_timer (c : CarState) (dt : ℝ) (ep : EngineParams) :
    (apply_brake_heating_and_cooling c dt ep).shift_timer = c.shift_timer := by simp only [apply_brake_heating_and_cooling]; split_ifs <;> rfl
@[simp] theorem apply_brake_heating_and_cooling_active_corner_start (c : CarState) (dt : ℝ) (ep : EngineParams) :
    (apply_brake_heating_and_cooling c dt ep).active_corner_start = c.active_corner_start := by simp only [apply_brake_heating_and_cooling]; split_ifs <;> rfl
@[simp] theorem apply_brake_heating_and_cooling_active_corner_apex (c : CarState) (dt : ℝ) (ep : EngineParams) :
    (apply_brake_heating_and_cooling c dt ep).active_corner_apex = c.active_corner_apex := by simp only [apply_brake_heating_and_cooling]; split_ifs <;> rfl
@[simp] theorem apply_brake_heating_and_cooling_active_corner_exit (c : CarState) (dt : ℝ) (ep : EngineParams) :
    (apply_brake_heating_and_cooling c dt ep).active_corner_exit = c.active_corner_exit := by simp only [apply_brake_heating_and_cooling]; split_ifs <;> rfl
@[simp] theorem apply_brake_heating_and_cooling_past_apex (c : CarState) (dt : ℝ) (ep : EngineParams) :
    (apply_brake_heating_and_cooling c dt ep).past_apex = c.past_apex := by simp only [apply_brake_heating_and_cooling]; split_ifs <;> rfl
@[simp] theorem handle_lap_completion_car_id (c : CarState) (tr : Track) (dt t op : ℝ) :
    (handle_lap_completion c tr dt t op).car_id = c.car_id := by unfold handle_lap_completion; split <;> rfl
@[simp] theorem handle_lap_completion_carSpec (c : CarState) (tr : Track) (dt t op : ℝ) :
    (handle_lap_completion c tr dt t op).carSpec = c.carSpec := by unfold handle_lap_completion; split <;> rfl
@[simp] theorem handle_lap_completion_velocity_mps (c : CarState) (tr : Track) (dt t op : ℝ) :
    (handle_lap_completion c tr dt t op).velocity_mps = c.velocity_mps := by unfold handle_lap_completion; split <;> rfl
@[simp] theorem handle_lap_completion_acceleration_mps (c : CarState) (tr : Track) (dt t op : ℝ) :
    (handle_lap_completion c tr dt t op).acceleration_mps = c.acceleration_mps := by unfold handle_lap_completion; split <;> rfl
@[simp] theorem handle_lap_completion_lap_start_time (c : CarState) (tr : Track) (dt t op : ℝ) :
    (handle_lap_completion c tr dt t op).lap_start_time = c.lap_start_time := by unfold handle_lap_completion; split <;> rfl
@[simp] theorem handle_lap_completion_braking_zone (c : CarState) (tr : Track) (dt t op : ℝ) :
    (handle_lap_completion c tr dt t op).braking_zone = c.braking_zone := by unfold handle_lap_completion; split <;> rfl
@[simp] theorem handle_lap_completion_braking_meter (c : CarState) (tr : Track) (dt t op : ℝ) :
    (handle_lap_completion c tr dt t op).braking_meter = c.braking_meter := by unfold handle_lap_completion; split <;> rfl
@[simp] theorem handle_lap_completion_velo_target (c : CarState) (tr : Track) (dt t op : ℝ) :
    (handle_lap_completion c tr dt t op).velo_target = c.velo_target := by unfold handle_lap_completion; split <;> rfl
@[simp] theorem handle_lap_completion_tire_FL (c : CarState) (tr : Track) (dt t op : ℝ) :
    (handle_lap_completion c tr dt t op).tire_FL = c.tire_FL := by unfold handle_lap_completion; split <;> rfl
@[simp] theorem handle_lap_completion_tire_FR (c : CarState) (tr : Track) (dt t op : ℝ) :
    (handle_lap_completion c tr dt t op).tire_FR = c.tire_FR := by unfold handle_lap_completion; split <;> rfl
@[simp] theorem handle_lap_completion_tire_RL (c : CarState) (tr : Track) (dt t op : ℝ) :
    (handle_lap_completion c tr dt t op).tire_RL = c.tire_RL := by unfold handle_lap_completion; split <;> rfl
@[simp] theorem handle_lap_completion_tire_RR (c : CarState) (tr : Track) (dt t op : ℝ) :
    (handle_lap_completion c tr dt t op).tire_RR = c.tire_RR := by unfold handle_lap_completion; split <;> rfl
@[simp] theorem handle_lap_completion_brake_FL_C (c : CarState) (tr : Track) (dt t op : ℝ) :
    (handle_lap_completion c tr dt t op).brake_FL_C = c.brake_FL_C := by unfold handle_lap_completion; split <;> rfl
@[simp] theorem handle_lap_completion_brake_FR_C (c : CarState) (tr : Track) (dt t op : ℝ) :
    (handle_lap_completion c tr dt t op).brake_FR_C = c.brake_FR_C := by unfold handle_lap_completion; split <;> rfl
@[simp] theorem handle_lap_completion_brake_RL_C (c : CarState) (tr : Track) (dt t op : ℝ) :
    (handle_lap_completion c tr dt t op).brake_RL_C = c.brake_RL_C := by unfold handle_lap_completion; split <;> rfl
@[simp] theorem handle_lap_completion_brake_RR_C (c : CarState) (tr : Track) (dt t op : ℝ) :
    (handle_lap_completion c tr dt t op).brake_RR_C = c.brake_RR_C := by unfold handle_lap_completion; split <;> rfl
@[simp] theorem handle_lap_completion_tire_params (c : CarState) (tr : Track) (dt t op : ℝ) :
    (handle_lap_completion c tr dt t op).tire_params = c.tire_params := by unfold handle_lap_completion; split <;> rfl
@[simp] theorem handle_lap_completion_aero_params (c : CarState) (tr : Track) (dt t op : ℝ) :
    (handle_lap_completion c tr dt t op).aero_params = c.aero_params := by unfold handle_lap_completion; split <;> rfl
@[simp] theorem handle_lap_completion_engine_params (c : CarState) (tr : Track) (dt t op : ℝ) :
    (handle_lap_completion c tr dt t op).engine_params = c.engine_params := by unfold handle_lap_completion; split <;> rfl
@[simp] theorem handle_lap_completion_brake_params (c : CarState) (tr : Track) (dt t op : ℝ) :
    (handle_lap_completion c tr dt t op).brake_params = c.brake_params := by unfold handle_lap_completion; split <;> rfl
@[simp] theorem handle_lap_completion_mu_effective (c : CarState) (tr : Track) (dt t op : ℝ) :
    (handle_lap_completion c tr dt t op).mu_effective = c.mu_effective := by unfold handle_lap_completion; split <;> rfl
@[simp] theorem handle_lap_completion_throttle (c : CarState) (tr : Track) (dt t op : ℝ) :
    (handle_lap_completion c tr dt t op).throttle = c.throttle := by unfold handle_lap_completion; split <;> rfl
@[simp] theorem handle_lap_completion_brake (c : CarState) (tr : Track) (dt t op : ℝ) :
    (handle_lap_completion c tr dt t op).brake = c.brake := by unfold handle_lap_completion; split <;> rfl
@[simp] theorem handle_lap_completion_rpm (c : CarState) (tr : Track) (dt t op : ℝ) :
    (handle_lap_completion c tr dt t op).rpm = c.rpm := by unfold handle_lap_completion; split <;> rfl
@[simp] theorem handle_lap_completion_gear (c : CarState) (tr : Track) (dt t op : ℝ) :
    (handle_lap_completion c tr dt t op).gear = c.gear := by unfold handle_lap_completion; split <;> rfl
@[simp] theorem handle_lap_completion_shift_timer (c : CarState) (tr : Track) (dt t op : ℝ) :
    (handle_lap_completion c tr dt t op).shift_timer = c.shift_timer := by unfold handle_lap_completion; split <;> rfl
@[simp] theorem handle_lap_completion_active_corner_start (c : CarState) (tr : Track) (dt t op : ℝ) :
    (handle_lap_completion c tr dt t op).active_corner_start = c.active_corner_start := by unfold handle_lap_completion; split <;> rfl
@[simp] theorem handle_lap_completion_active_corner_apex (c : CarState) (tr : Track) (dt t op : ℝ) :
    (handle_lap_completion c tr dt t op).active_corner_apex = c.active_corner_apex := by unfold handle_lap_completion; split <;> rfl
@[simp] theorem handle_lap_completion_active_corner_exit (c : CarState) (tr : Track) (dt t op : ℝ) :
    (handle_lap_completion c tr dt t op).active_corner_exit = c.active_corner_exit := by unfold handle_lap_completion; split <;> rfl
@[simp] theorem handle_lap_completion_past_apex (c : CarState) (tr : Track) (dt t op : ℝ) :
    (handle_lap_completion c tr dt t op).past_apex = c.past_apex := by unfold handle_lap_completion; split <;> rfl


/-! Structural lemmas about `run_sim`. -/

/-- The brake/throttle priority rule never leaves both demands above the
0.05 deadband. -/
theorem update_throttle_and_brake_exclusive (c : CarState) (d a : ℝ) :
    ¬ ((update_throttle_and_brake c d a).throttle > 0.05 ∧
       (update_throttle_and_brake c d a).brake > 0.05) := by
  unfold update_throttle_and_brake
  dsimp only
  split_ifs <;> simp <;> norm_num

/-- Unfolding lemma: `run_sim` is `run_sim_core` followed by `_handle_lap_completion`. -/
theorem run_sim_state_eq (c : CarState) (dt : ℝ) (tr : Track) (t : ℝ) :
    (run_sim c dt tr t).1
      = handle_lap_completion (run_sim_core c dt tr).1 tr dt t c.track_position := rfl

/-- The integration pipeline before lap handling does not touch the lap
counter. -/
theorem run_sim_core_laps (c : CarState) (dt : ℝ) (tr : Track) :
    (run_sim_core c dt tr).1.laps = c.laps := by
  unfold run_sim_core; simp

/-- The integration pipeline before lap handling does not touch
`best_lap`. -/
theorem run_sim_core_best_lap (c : CarState) (dt : ℝ) (tr : Track) :
    (run_sim_core c dt tr).1.best_lap = c.best_lap := by
  unfold run_sim_core; simp

/-- The velocity produced by the integration step is clamped below by 0. -/
theorem run_sim_core_velocity_nonneg (c : CarState) (dt : ℝ) (tr : Track) :
    0 ≤ (run_sim_core c dt tr).1.velocity_mps := by
  unfold run_sim_core
  simp only [apply_tire_heating_and_wear_velocity_mps,
    apply_brake_heating_and_cooling_velocity_mps]
  exact le_max_left _ _

/-- Trapezoidal position update: the pre-wrap position is the old position
plus the average of old and new velocity times dt. -/
theorem run_sim_core_position_eq (c : CarState) (dt : ℝ) (tr : Track) :
    (run_sim_core c dt tr).1.track_position
      = c.track_position
        + ((c.velocity_mps + (run_sim_core c dt tr).1.velocity_mps) / 2) * dt := by
  conv_lhs => unfold run_sim_core
  conv_rhs => unfold run_sim_core
  simp

/-- C2: after any `run_sim` call, the car's throttle and brake are never
both greater than 0.05: the control policy applies brake with throttle
forced to 0, or throttle with brake forced to 0, or zeroes both. -/
theorem C2_throttle_brake_never_both (c : CarState) (dt : ℝ) (tr : Track) (t : ℝ) :
    ¬ ((run_sim c dt tr t).1.throttle > 0.05 ∧ (run_sim c dt tr t).1.brake > 0.05) := by
  rw [run_sim_state_eq]
  unfold run_sim_core
  simp only [handle_lap_completion_throttle, handle_lap_completion_brake,
    apply_tire_heating_and_wear_throttle, apply_tire_heating_and_wear_brake,
    apply_brake_heating_and_cooling_throttle, apply_brake_heating_and_cooling_brake,
    update_gear_and_rpm_throttle, update_gear_and_rpm_brake]
  exact update_throttle_and_brake_exclusive _ _ _

/-- C4: `run_sim` is deterministic — identical car state, track, `dt` and
`sim_t` inputs produce identical telemetry and identical final state (the
source's `time.time()` profiling reads do not influence either output). -/
theorem C4_deterministic (c1 c2 : CarState) (dt1 dt2 : ℝ) (tr1 tr2 : Track) (t1 t2 : ℝ)
    (hc : c1 = c2) (hdt : dt1 = dt2) (htr : tr1 = tr2) (ht : t1 = t2) :
    run_sim c1 dt1 tr1 t1 = run_sim c2 dt2 tr2 t2 := by
  subst hc; subst hdt; subst htr; subst ht; rfl

/-- Witness for C4 at a concrete input. -/
theorem C4_deterministic_witness :
    run_sim c1WitCar 1 straightTrack10 0 = run_sim c1WitCar 1 straightTrack10 0 :=
  C4_deterministic c1WitCar c1WitCar 1 1 straightTrack10 straightTrack10 0 0 rfl rfl rfl rfl

/-- C9: one `run_sim` call increments the lap counter by at most one, and
subtracts the lap length from the integrated (pre-wrap) position at most
once, whatever the inputs. -/
theorem C9_at_most_one_lap_per_tick (c : CarState) (dt : ℝ) (tr : Track) (t : ℝ) :
    (run_sim c dt tr t).1.laps ≤ c.laps + 1 ∧
    ((run_sim c dt tr t).1.track_position = (run_sim_core c dt tr).1.track_position ∨
     (run_sim c dt tr t).1.track_position
       = (run_sim_core c dt tr).1.track_position - tr.lap_length_meter) := by
  rw [run_sim_state_eq]
  unfold handle_lap_completion
  split_ifs with h
  · refine ⟨?_, Or.inr ?_⟩
    · dsimp only
      rw [run_sim_core_laps]
    · dsimp only
  · refine ⟨?_, Or.inl rfl⟩
    rw [run_sim_core_laps]
    omega

/-- C10: whenever the integrated position crosses the lap line, `best_lap`
is unconditionally overwritten with the interpolated absolute crossing
time `(sim_t - dt) + time_frac * dt` — independent of its prior value, so
it is the timestamp of the most recent crossing, not a minimum. -/
theorem C10_best_lap_latest_crossing (c : CarState) (dt : ℝ) (tr : Track) (t : ℝ)
    (h : tr.lap_length_meter ≤ (run_sim_core c dt tr).1.track_position) :
    (run_sim c dt tr t).1.best_lap
      = (t - dt)
        + (if (run_sim_core c dt tr).1.track_position - c.track_position > 0
           then (tr.lap_length_meter - c.track_position)
                / ((run_sim_core c dt tr).1.track_position - c.track_position)
           else 0) * dt := by
  rw [run_sim_state_eq]
  unfold handle_lap_completion
  rw [if_pos h]

/-- C3 (amended): on a crossing tick starting from a position below the
lap line, the lap count goes up by exactly one and the crossing time
equals `(sim_t - dt) + time_frac * dt`; it lies in the half-open interval
`(sim_t - dt, sim_t]`, strictly below `sim_t` exactly when the line is
strictly passed; and a crossing with non-positive travel distance defaults
the time fraction to 0 instead of dividing by zero. -/
theorem C3_crossing_time_interpolation (c : CarState) (dt : ℝ) (tr : Track) (t : ℝ)
    (hdt : 0 < dt) (hold : c.track_position < tr.lap_length_meter)
    (hcross : tr.lap_length_meter ≤ (run_sim_core c dt tr).1.track_position) :
    (run_sim c dt tr t).1.laps = c.laps + 1 ∧
    (run_sim c dt tr t).1.best_lap
      = (t - dt) + ((tr.lap_length_meter - c.track_position)
          / ((run_sim_core c dt tr).1.track_position - c.track_position)) * dt ∧
    t - dt < (run_sim c dt tr t).1.best_lap ∧
    (run_sim c dt tr t).1.best_lap ≤ t ∧
    (tr.lap_length_meter < (run_sim_core c dt tr).1.track_position →
      (run_sim c dt tr t).1.best_lap < t) ∧
    (∀ (st : CarState) (old_pos : ℝ), tr.lap_length_meter ≤ st.track_position →
      st.track_position - old_pos ≤ 0 →
      (handle_lap_completion st tr dt t old_pos).best_lap = t - dt) := by
  have hdist : 0 < (run_sim_core c dt tr).1.track_position - c.track_position := by
    linarith
  have hlaps : (run_sim c dt tr t).1.laps = c.laps + 1 := by
    rw [run_sim_state_eq]
    unfold handle_lap_completion
    rw [if_pos hcross]
    dsimp only
    rw [run_sim_core_laps]
  have hbest : (run_sim c dt tr t).1.best_lap
      = (t - dt) + ((tr.lap_length_meter - c.track_position)
          / ((run_sim_core c dt tr).1.track_position - c.track_position)) * dt := by
    rw [run_sim_state_eq]
    unfold handle_lap_completion
    rw [if_pos hcross]
    dsimp only
    rw [if_pos hdist]
  have hfrac0 : 0 < (tr.lap_length_meter - c.track_position)
      / ((run_sim_core c dt tr).1.track_position - c.track_position) :=
    div_pos (by linarith) hdist
  have hfrac1 : (tr.lap_length_meter - c.track_position)
      / ((run_sim_core c dt tr).1.track_position - c.track_position) ≤ 1 :=
    (div_le_one hdist).mpr (by linarith)
  refine ⟨hlaps, hbest, ?_, ?_, ?_, ?_⟩
  · rw [hbest]
    nlinarith
  · rw [hbest]
    nlinarith
  · intro hstrict
    rw [hbest]
    have : (tr.lap_length_meter - c.track_position)
        / ((run_sim_core c dt tr).1.track_position - c.track_position) < 1 :=
      (div_lt_one hdist).mpr (by linarith)
    nlinarith
  · intro st old_pos h1 h2
    unfold handle_lap_completion
    rw [if_pos h1]
    dsimp only
    rw [if_neg (not_lt.mpr h2)]
    ring

/-- C1 (amended): if the starting velocity is nonnegative, the starting
position is in `[0, lap_length)` and the distance integrated in this tick
is less than one lap length, then the position after `run_sim` is again in
`[0, lap_length)`. -/
theorem C1_position_stays_in_range (c : CarState) (dt : ℝ) (tr : Track) (t : ℝ)
    (hL : 0 < tr.lap_length_meter) (hdt : 0 < dt)
    (hpos0 : 0 ≤ c.track_position) (hpos1 : c.track_position < tr.lap_length_meter)
    (hv : 0 ≤ c.velocity_mps)
    (hsingle : (run_sim_core c dt tr).1.track_position
                 < c.track_position + tr.lap_length_meter) :
    0 ≤ (run_sim c dt tr t).1.track_position ∧
    (run_sim c dt tr t).1.track_position < tr.lap_length_meter := by
  have hvnew := run_sim_core_velocity_nonneg c dt tr
  have hpe := run_sim_core_position_eq c dt tr
  have hup : c.track_position ≤ (run_sim_core c dt tr).1.track_position := by
    rw [hpe]
    have havg : 0 ≤ (c.velocity_mps + (run_sim_core c dt tr).1.velocity_mps) / 2 := by
      linarith
    nlinarith
  rw [run_sim_state_eq]
  unfold handle_lap_completion
  split_ifs with h
  · dsimp only
    constructor
    · linarith [h]
    · linarith
  · have hlt : (run_sim_core c dt tr).1.track_position < tr.lap_length_meter :=
      not_le.mp h
    exact ⟨by linarith, hlt⟩

/-- Concrete evaluation: from the C1 counterexample state (negative stored
velocity, coasting policy) one tick integrates the position to -500. -/
theorem c1_cex_core_eval :
    (run_sim_core c1CexCar 1 straightTrack10).1.track_position = -500 := by
  unfold run_sim_core
  norm_num [c1CexCar, c1WitCar, baseCar, gtSpec, straightTrack10,
    find_next_corner, find_corner_ahead, find_first_corner,
    calculate_aero_forces, calculate_tire_friction, calculate_brake_fade,
    update_active_corner, get_corner_boundaries, get_distance_to_corner_points,
    update_throttle_and_brake, calculate_brake_demand, calculate_throttle_demand,
    get_engine_parameters, calculate_driving_force, calculate_torque, torque_scan,
    G, buffer_m, rho_default, max_def, min_def]

/-- Concrete evaluation: from the coasting witness state at rest the tick
leaves the position at 0. -/
theorem c1_wit_core_eval :
    (run_sim_core c1WitCar 1 straightTrack10).1.track_position = 0 := by
  unfold run_sim_core
  norm_num [c1WitCar, c1CexCar, baseCar, gtSpec, straightTrack10,
    find_next_corner, find_corner_ahead, find_first_corner,
    calculate_aero_forces, calculate_tire_friction, calculate_brake_fade,
    update_active_corner, get_corner_boundaries, get_distance_to_corner_points,
    update_throttle_and_brake, calculate_brake_demand, calculate_throttle_demand,
    get_engine_parameters, calculate_driving_force, calculate_torque, torque_scan,
    G, buffer_m, rho_default, max_def, min_def]

/-- C1 counterexample: a track of lap length 10, `dt = 1 > 0` and a start
state with `track_position = 0` (that is, inside `[0, lap_length)`) whose
stored velocity is negative; after `run_sim` the position is -500, outside
`[0, lap_length)`. -/
theorem C1_counterexample :
    0 < straightTrack10.lap_length_meter ∧ (0:ℝ) < 1 ∧
    0 ≤ c1CexCar.track_position ∧
    c1CexCar.track_position < straightTrack10.lap_length_meter ∧
    ¬ (0 ≤ (run_sim c1CexCar 1 straightTrack10 0).1.track_position) := by
  have hc : ¬ ((run_sim_core c1CexCar 1 straightTrack10).1.track_position
      ≥ straightTrack10.lap_length_meter) := by
    rw [c1_cex_core_eval]
    norm_num [straightTrack10]
  refine ⟨by norm_num [straightTrack10], by norm_num,
    by norm_num [c1CexCar, baseCar, gtSpec],
    by norm_num [c1CexCar, baseCar, gtSpec, straightTrack10], ?_⟩
  rw [run_sim_state_eq]
  unfold handle_lap_completion
  rw [if_neg hc, c1_cex_core_eval]
  norm_num

/-- Witness for the amended C1 at a concrete input (coasting car at rest
on the 10 m track). -/
theorem C1_position_stays_in_range_witness :
    0 ≤ (run_sim c1WitCar 1 straightTrack10 0).1.track_position ∧
    (run_sim c1WitCar 1 straightTrack10 0).1.track_position
      < straightTrack10.lap_length_meter :=
  C1_position_stays_in_range c1WitCar 1 straightTrack10 0
    (by norm_num [straightTrack10]) (by norm_num)
    (by norm_num [c1WitCar, baseCar, gtSpec])
    (by norm_num [c1WitCar, baseCar, gtSpec, straightTrack10])
    (by norm_num [c1WitCar, baseCar, gtSpec])
    (by rw [c1_wit_core_eval]; norm_num [c1WitCar, baseCar, gtSpec, straightTrack10])

/-- Concrete evaluation: the coasting car at 10.073575 m/s integrates to a
pre-wrap position of exactly the lap length (10 m). -/
theorem c3_cex_core_eval :
    (run_sim_core c3CexCar 1 straightTrack10).1.track_position = 10 := by
  unfold run_sim_core
  norm_num [c3CexCar, c1WitCar, baseCar, gtSpec, straightTrack10,
    find_next_corner, find_corner_ahead, find_first_corner,
    calculate_aero_forces, calculate_tire_friction, calculate_brake_fade,
    update_active_corner, get_corner_boundaries, get_distance_to_corner_points,
    update_throttle_and_brake, calculate_brake_demand, calculate_throttle_demand,
    get_engine_parameters, calculate_driving_force, calculate_torque, torque_scan,
    G, buffer_m, rho_default, max_def, min_def]

/-- Concrete evaluation: landing exactly on the line still counts as a
crossing, with interpolated time fraction 1, so the recorded crossing time
equals `sim_t` itself. -/
theorem c3_cex_eval :
    (run_sim c3CexCar 1 straightTrack10 5).1.laps = 1 ∧
    (run_sim c3CexCar 1 straightTrack10 5).1.best_lap = 5 := by
  have hcross : (run_sim_core c3CexCar 1 straightTrack10).1.track_position
      ≥ straightTrack10.lap_length_meter := by
    rw [c3_cex_core_eval]
    norm_num [straightTrack10]
  constructor
  · rw [run_sim_state_eq]
    unfold handle_lap_completion
    rw [if_pos hcross]
    dsimp only
    rw [run_sim_core_laps]
    norm_num [c3CexCar, c1WitCar, baseCar, gtSpec]
  · rw [run_sim_state_eq]
    unfold handle_lap_completion
    rw [if_pos hcross]
    dsimp only
    rw [c3_cex_core_eval]
    norm_num [c3CexCar, c1WitCar, baseCar, gtSpec, straightTrack10]

/-- C3 counterexample: a tick whose pre-wrap position reaches the lap
length exactly.  The lap is counted, but the recorded crossing time equals
`sim_t` (= 5) and is not strictly between `sim_t - dt` and `sim_t`. -/
theorem C3_counterexample :
    c3CexCar.track_position < straightTrack10.lap_length_meter ∧
    straightTrack10.lap_length_meter
      ≤ (run_sim_core c3CexCar 1 straightTrack10).1.track_position ∧
    (run_sim c3CexCar 1 straightTrack10 5).1.laps = c3CexCar.laps + 1 ∧
    ¬ ((run_sim c3CexCar 1 straightTrack10 5).1.best_lap < 5) := by
  refine ⟨by norm_num [c3CexCar, c1WitCar, baseCar, gtSpec, straightTrack10], ?_, ?_, ?_⟩
  · rw [c3_cex_core_eval]
    norm_num [straightTrack10]
  · rw [c3_cex_eval.1]
    norm_num [c3CexCar, c1WitCar, baseCar, gtSpec]
  · rw [c3_cex_eval.2]
    norm_num

/-- Concrete evaluation: the coasting car at 12 m/s strictly overshoots
the 10 m line, integrating to 11.926425 m. -/
theorem c3_wit_core_eval :
    (run_sim_core c3WitCar 1 straightTrack10).1.track_position = 11.926425 := by
  unfold run_sim_core
  norm_num [c3WitCar, c1WitCar, baseCar, gtSpec, straightTrack10,
    find_next_corner, find_corner_ahead, find_first_corner,
    calculate_aero_forces, calculate_tire_friction, calculate_brake_fade,
    update_active_corner, get_corner_boundaries, get_distance_to_corner_points,
    update_throttle_and_brake, calculate_brake_demand, calculate_throttle_demand,
    get_engine_parameters, calculate_driving_force, calculate_torque, torque_scan,
    G, buffer_m, rho_default, max_def, min_def]

/-- Witness for the amended C3 at a concrete strict crossing. -/
theorem C3_crossing_time_interpolation_witness :
    (run_sim c3WitCar 1 straightTrack10 5).1.laps = c3WitCar.laps + 1 ∧
    (run_sim c3WitCar 1 straightTrack10 5).1.best_lap
      = (5 - 1) + ((straightTrack10.lap_length_meter - c3WitCar.track_position)
          / ((run_sim_core c3WitCar 1 straightTrack10).1.track_position
              - c3WitCar.track_position)) * 1 ∧
    (5:ℝ) - 1 < (run_sim c3WitCar 1 straightTrack10 5).1.best_lap ∧
    (run_sim c3WitCar 1 straightTrack10 5).1.best_lap ≤ 5 ∧
    (straightTrack10.lap_length_meter
        < (run_sim_core c3WitCar 1 straightTrack10).1.track_position →
      (run_sim c3WitCar 1 straightTrack10 5).1.best_lap < 5) ∧
    (∀ (st : CarState) (old_pos : ℝ),
      straightTrack10.lap_length_meter ≤ st.track_position →
      st.track_position - old_pos ≤ 0 →
      (handle_lap_completion st straightTrack10 1 5 old_pos).best_lap = 5 - 1) :=
  C3_crossing_time_interpolation c3WitCar 1 straightTrack10 5 (by norm_num)
    (by norm_num [c3WitCar, c1WitCar, baseCar, gtSpec, straightTrack10])
    (by rw [c3_wit_core_eval]; norm_num [straightTrack10])

/-- Witness for C10 at a concrete strict crossing. -/
theorem C10_best_lap_latest_crossing_witness :
    straightTrack10.lap_length_meter
      ≤ (run_sim_core c3WitCar 1 straightTrack10).1.track_position ∧
    (run_sim c3WitCar 1 straightTrack10 5).1.best_lap
      = ((5:ℝ) - 1)
        + (if (run_sim_core c3WitCar 1 straightTrack10).1.track_position
              - c3WitCar.track_position > 0
           then (straightTrack10.lap_length_meter - c3WitCar.track_position)
                / ((run_sim_core c3WitCar 1 straightTrack10).1.track_position
                    - c3WitCar.track_position)
           else 0) * 1 := by
  have h : straightTrack10.lap_length_meter
      ≤ (run_sim_core c3WitCar 1 straightTrack10).1.track_position := by
    rw [c3_wit_core_eval]
    norm_num [straightTrack10]
  exact ⟨h, C10_best_lap_latest_crossing c3WitCar 1 straightTrack10 5 h⟩

/-- On a corner-free segment list the forward scan finds nothing. -/
theorem find_corner_ahead_none (pos : ℝ) (l : List Segment)
    (h : ∀ seg ∈ l, seg.type ≠ "corner") : find_corner_ahead pos l = none := by
  induction l with
  | nil => rfl
  | cons seg rest ih =>
    unfold find_corner_ahead
    rw [if_neg]
    · exact ih (fun s hs => h s (List.mem_cons_of_mem _ hs))
    · intro hc
      exact h seg (List.mem_cons_self _ _) hc.1

/-- On a corner-free segment list the wraparound scan finds nothing. -/
theorem find_first_corner_none (l : List Segment)
    (h : ∀ seg ∈ l, seg.type ≠ "corner") : find_first_corner l = none := by
  induction l with
  | nil => rfl
  | cons seg rest ih =>
    unfold find_first_corner
    rw [if_neg (h seg (List.mem_cons_self _ _))]
    exact ih (fun s hs => h s (List.mem_cons_of_mem _ hs))

/-- With no corner segments, `_find_next_corner` reports failure and
leaves the car unchanged. -/
theorem find_next_corner_no_corners (c : CarState) (tr : Track)
    (h : ∀ seg ∈ tr.segments, seg.type ≠ "corner") :
    find_next_corner c tr = (c, false) := by
  unfold find_next_corner
  rw [find_corner_ahead_none _ _ h, find_first_corner_none _ h]

/-- With no corner segments, `_update_active_corner` reports failure and
leaves the car unchanged. -/
theorem update_active_corner_no_corners (c : CarState) (tr : Track)
    (h : ∀ seg ∈ tr.segments, seg.type ≠ "corner") :
    update_active_corner c tr = (c, false) := by
  unfold update_active_corner
  rw [find_corner_ahead_none _ _ h, find_first_corner_none _ h]
  split <;> rfl

/-- The corner-point distances only depend on fields the tire friction
update preserves. -/
theorem get_distance_tire_friction (c : CarState) (m fd : ℝ) (tr : Track) :
    get_distance_to_corner_points (calculate_tire_friction c m fd) tr
      = get_distance_to_corner_points c tr := by
  unfold get_distance_to_corner_points
  simp

/-- When the target speed is non-positive and the apex is more than the
5 m buffer away, the policy computes a zero braking distance and zero
brake demand. -/
theorem update_throttle_and_brake_inert (c : CarState) (d a : ℝ)
    (hvt : c.velo_target ≤ 0) (hd : 5 < d) :
    (update_throttle_and_brake c d a).brake = 0 ∧
    (update_throttle_and_brake c d a).braking_meter = 0 := by
  have h1 : ¬ (d ≤ (1.0:ℝ)) := by linarith
  have h2 : ¬ (c.velocity_mps > c.velo_target ∧ c.velo_target > 0) := by
    rintro ⟨-, hv⟩
    linarith
  have h3 : ¬ (d ≤ (5:ℝ)) := by linarith
  constructor <;>
    simp [update_throttle_and_brake, calculate_brake_demand, buffer_m, h1, h2, h3]

/-- C5 (amended): on a Track with zero corner segments, `run_sim` (a total
function here) keeps `velo_target` at its previous value, and provided
that previous value is non-positive (as in a freshly initialised car) and
the stale active-corner apex is more than 5 m away, the braking distance
resolves to 0 and the brake demand is 0.  (The unamended claim fails: a
stale positive `velo_target` yields a positive braking distance and full
brake, see the counterexample.) -/
theorem C5_no_corners_brake_logic (c : CarState) (dt : ℝ) (tr : Track) (t : ℝ)
    (hnc : ∀ seg ∈ tr.segments, seg.type ≠ "corner")
    (hvt : c.velo_target ≤ 0)
    (hd : 5 < (get_distance_to_corner_points c tr).1) :
    (run_sim c dt tr t).1.velo_target = c.velo_target ∧
    (run_sim c dt tr t).1.braking_meter = 0 ∧
    (run_sim c dt tr t).1.brake = 0 := by
  have hfn : ∀ cc : CarState, find_next_corner cc tr = (cc, false) :=
    fun cc => find_next_corner_no_corners cc tr hnc
  have hac : ∀ cc : CarState, update_active_corner cc tr = (cc, false) :=
    fun cc => update_active_corner_no_corners cc tr hnc
  rw [run_sim_state_eq]
  unfold run_sim_core
  simp only [hfn, hac, ite_self]
  simp [get_distance_tire_friction]
  constructor
  · exact (update_throttle_and_brake_inert _ _ _
      (by simp [hvt]) (by simpa [get_distance_tire_friction] using hd)).2
  · exact (update_throttle_and_brake_inert _ _ _
      (by simp [hvt]) (by simpa [get_distance_tire_friction] using hd)).1

set_option maxHeartbeats 2000000 in
/-- Concrete evaluation: with a stale target of 10 m/s at 50 m/s the
policy computes a 120 m braking distance and commands full brake, corner
or no corner. -/
theorem c5_cex_eval :
    (run_sim c5CexCar 1 straightTrack10 0).1.braking_meter = 120 ∧
    (run_sim c5CexCar 1 straightTrack10 0).1.brake = 1 := by
  constructor <;>
  · rw [run_sim_state_eq]
    simp only [handle_lap_completion_braking_meter, handle_lap_completion_brake]
    unfold run_sim_core
    norm_num [(show ("straight":String) ≠ "corner" by decide),
      c5CexCar, baseCar, gtSpec, straightTrack10,
      find_next_corner, find_corner_ahead, find_first_corner,
      calculate_aero_forces, calculate_tire_friction, calculate_brake_fade,
      update_active_corner, get_corner_boundaries, get_distance_to_corner_points,
      update_throttle_and_brake, calculate_brake_demand, calculate_throttle_demand,
      get_engine_parameters, calculate_driving_force, calculate_torque, torque_scan,
      G, buffer_m, rho_default, max_def, min_def]

/-- C5 counterexample: on a corner-free track, a car carrying a stale
positive target speed still computes a non-zero braking distance (120 m)
and a non-zero brake demand (full brake) — the braking logic is not
inert. -/
theorem C5_counterexample :
    (∀ seg ∈ straightTrack10.segments, seg.type ≠ "corner") ∧
    ¬ ((run_sim c5CexCar 1 straightTrack10 0).1.braking_meter = 0) ∧
    ¬ ((run_sim c5CexCar 1 straightTrack10 0).1.brake = 0) := by
  refine ⟨?_, ?_, ?_⟩
  · intro seg hs
    simp only [straightTrack10, List.mem_singleton] at hs
    subst hs
    decide
  · rw [c5_cex_eval.1]
    norm_num
  · rw [c5_cex_eval.2]
    norm_num

/-- Witness for the amended C5 at a concrete input. -/
theorem C5_no_corners_brake_logic_witness :
    (run_sim c5WitCar 1 straightTrack10 0).1.velo_target = c5WitCar.velo_target ∧
    (run_sim c5WitCar 1 straightTrack10 0).1.braking_meter = 0 ∧
    (run_sim c5WitCar 1 straightTrack10 0).1.brake = 0 :=
  C5_no_corners_brake_logic c5WitCar 1 straightTrack10 0
    (by
      intro seg hs
      simp only [straightTrack10, List.mem_singleton] at hs
      subst hs
      decide)
    (by norm_num [c5WitCar, baseCar, gtSpec])
    (by norm_num [get_distance_to_corner_points, c5WitCar, baseCar, gtSpec, straightTrack10])

/-- C6 counterexample: with `grip_drop_cold = 0.9` the cold branch of the
temperature factor returns `1 - 0.9 = 0.1`, below the claimed 0.2 floor —
the `[0.2, 1.0]` clamp is applied only on the interior branch. -/
theorem C6_counterexample :
    ¬ (0.2 ≤ temp_factor 40 50 90 130 0.9 0.1 ∧
       temp_factor 40 50 90 130 0.9 0.1 ≤ 1) := by
  norm_num [temp_factor]

/-- C6 (amended): the per-tire temperature grip factor lies in
`[0.2, 1.0]` provided both grip-drop parameters lie in `[0, 0.8]` (the
boundary branches return `1 - drop` unclamped); the final per-tire
friction value is at least 0.2 unconditionally. -/
theorem C6_friction_clamps :
    ∀ (T coldC optC hotC dc dh : ℝ) (tire : TireState) (mu_load : ℝ) (tp : TireParams),
    (0 ≤ dc → dc ≤ 0.8 → 0 ≤ dh → dh ≤ 0.8 →
      0.2 ≤ temp_factor T coldC optC hotC dc dh ∧
      temp_factor T coldC optC hotC dc dh ≤ 1) ∧
    0.2 ≤ per_tire_friction tire mu_load tp := by
  intro T coldC optC hotC dc dh tire mu_load tp
  constructor
  · intro h1 h2 h3 h4
    unfold temp_factor
    dsimp only
    split_ifs
    · exact ⟨by linarith, by linarith⟩
    · exact ⟨by linarith, by linarith⟩
    · exact ⟨le_max_left _ _, max_le (by norm_num) ((min_le_left _ _).trans (by norm_num))⟩
    · exact ⟨le_max_left _ _, max_le (by norm_num) ((min_le_left _ _).trans (by norm_num))⟩
  · unfold per_tire_friction
    dsimp only
    exact le_max_left _ _

/-- Witness for the amended C6 at concrete parameters. -/
theorem C6_friction_clamps_witness :
    (0.2 ≤ temp_factor 40 50 90 130 0.5 0.5 ∧
     temp_factor 40 50 90 130 0.5 0.5 ≤ 1) ∧
    0.2 ≤ per_tire_friction { temp_C := 70, wear := 0 } 1.2 tpExample := by
  have h := C6_friction_clamps 40 50 90 130 0.5 0.5 { temp_C := 70, wear := 0 } 1.2 tpExample
  exact ⟨h.1 (by norm_num) (by norm_num) (by norm_num) (by norm_num), h.2⟩

/-- Clamped wear can only move up from a value that is at most 1. -/
theorem wear_clamp_mono (w inc : ℝ) (hw : w ≤ 1) (hinc : 0 ≤ inc) :
    w ≤ max 0 (min 1 (w + inc)) :=
  le_trans (le_min hw (by linarith)) (le_max_right _ _)

/-- One cool-then-heat temperature step does not decrease the temperature
when the cooling deficit is covered by the heating term. -/
theorem tire_temp_step_mono (T dt heat : ℝ) (hT : 0 ≤ T) (hdt : 0 ≤ dt)
    (hcd : 0.08 * dt ≤ 1) (hgap : 0.08 * (T - 25.0) ≤ heat) :
    T ≤ max 0 (T - 0.08 * (T - 25.0) * dt) + heat * dt := by
  have hfloor : 0 ≤ T - 0.08 * (T - 25.0) * dt := by nlinarith
  rw [max_eq_right hfloor]
  nlinarith [mul_le_mul_of_nonneg_right hgap hdt]

/-- Pure cooling contracts the gap to the 25 °C ambient geometrically. -/
theorem tire_temp_gap_eq (T dt : ℝ) (hT : 0 ≤ T) (hdt : 0 ≤ dt)
    (hcd : 0.08 * dt ≤ 1) :
    max 0 (T - 0.08 * (T - 25.0) * dt) - 25 = (1 - 0.08 * dt) * (T - 25) := by
  have hfloor : 0 ≤ T - 0.08 * (T - 25.0) * dt := by nlinarith
  rw [max_eq_right hfloor]
  ring

/-- C7 (amended): for the thermal integrator with default parameters and
`0.08 * dt ≤ 1`: under full brake every tire wear at most 1 is monotone
non-decreasing and every tire temperature below its heating equilibrium
(250 °C front, 160 °C rear) is monotone non-decreasing; under full
throttle likewise (equilibria 125 °C rear, 65 °C front); and with both
inputs zero every tire's gap to the 25 °C ambient contracts by the factor
`1 - 0.08 * dt`.  (Unconditional temperature monotonicity fails: a tire
hotter than its equilibrium cools even under full brake, see the
counterexample.) -/
theorem C7_tire_wear_temp_monotonicity :
    ∀ (c : CarState) (dt : ℝ),
    0 ≤ dt → 0.08 * dt ≤ 1 →
    0 ≤ c.tire_FL.temp_C → 0 ≤ c.tire_FR.temp_C →
    0 ≤ c.tire_RL.temp_C → 0 ≤ c.tire_RR.temp_C →
    ((c.brake = 1 → c.throttle = 0 →
       (c.tire_FL.wear ≤ 1 →
         c.tire_FL.wear ≤ (apply_tire_heating_and_wear c dt {}).tire_FL.wear) ∧
       (c.tire_FR.wear ≤ 1 →
         c.tire_FR.wear ≤ (apply_tire_heating_and_wear c dt {}).tire_FR.wear) ∧
       (c.tire_RL.wear ≤ 1 →
         c.tire_RL.wear ≤ (apply_tire_heating_and_wear c dt {}).tire_RL.wear) ∧
       (c.tire_RR.wear ≤ 1 →
         c.tire_RR.wear ≤ (apply_tire_heating_and_wear c dt {}).tire_RR.wear) ∧
       (c.tire_FL.temp_C ≤ 250 →
         c.tire_FL.temp_C ≤ (apply_tire_heating_and_wear c dt {}).tire_FL.temp_C) ∧
       (c.tire_FR.temp_C ≤ 250 →
         c.tire_FR.temp_C ≤ (apply_tire_heating_and_wear c dt {}).tire_FR.temp_C) ∧
       (c.tire_RL.temp_C ≤ 160 →
         c.tire_RL.temp_C ≤ (apply_tire_heating_and_wear c dt {}).tire_RL.temp_C) ∧
       (c.tire_RR.temp_C ≤ 160 →
         c.tire_RR.temp_C ≤ (apply_tire_heating_and_wear c dt {}).tire_RR.temp_C)) ∧
     (c.throttle = 1 → c.brake = 0 →
       (c.tire_FL.wear ≤ 1 →
         c.tire_FL.wear ≤ (apply_tire_heating_and_wear c dt {}).tire_FL.wear) ∧
       (c.tire_FR.wear ≤ 1 →
         c.tire_FR.wear ≤ (apply_tire_heating_and_wear c dt {}).tire_FR.wear) ∧
       (c.tire_RL.wear ≤ 1 →
         c.tire_RL.wear ≤ (apply_tire_heating_and_wear c dt {}).tire_RL.wear) ∧
       (c.tire_RR.wear ≤ 1 →
         c.tire_RR.wear ≤ (apply_tire_heating_and_wear c dt {}).tire_RR.wear) ∧
       (c.tire_RL.temp_C ≤ 125 →
         c.tire_RL.temp_C ≤ (apply_tire_heating_and_wear c dt {}).tire_RL.temp_C) ∧
       (c.tire_RR.temp_C ≤ 125 →
         c.tire_RR.temp_C ≤ (apply_tire_heating_and_wear c dt {}).tire_RR.temp_C) ∧
       (c.tire_FL.temp_C ≤ 65 →
         c.tire_FL.temp_C ≤ (apply_tire_heating_and_wear c dt {}).tire_FL.temp_C) ∧
       (c.tire_FR.temp_C ≤ 65 →
         c.tire_FR.temp_C ≤ (apply_tire_heating_and_wear c dt {}).tire_FR.temp_C)) ∧
     (c.brake = 0 → c.throttle = 0 →
       (apply_tire_heating_and_wear c dt {}).tire_FL.temp_C - 25
           = (1 - 0.08 * dt) * (c.tire_FL.temp_C - 25) ∧
       (apply_tire_heating_and_wear c dt {}).tire_FR.temp_C - 25
           = (1 - 0.08 * dt) * (c.tire_FR.temp_C - 25) ∧
       (apply_tire_heating_and_wear c dt {}).tire_RL.temp_C - 25
           = (1 - 0.08 * dt) * (c.tire_RL.temp_C - 25) ∧
       (apply_tire_heating_and_wear c dt {}).tire_RR.temp_C - 25
           = (1 - 0.08 * dt) * (c.tire_RR.temp_C - 25))) := by
  intro c dt hdt hcd hT1 hT2 hT3 hT4
  refine ⟨?_, ?_, ?_⟩
  · intro hb ht
    unfold apply_tire_heating_and_wear
    dsimp only
    rw [hb]
    rw [if_pos (show (1:ℝ) > 0.1 by norm_num)]
    dsimp only
    rw [ht]
    rw [if_neg (show ¬ ((0:ℝ) > 0.1) by norm_num)]
    dsimp only
    simp only [Option.getD_none]
    refine ⟨?_, ?_, ?_, ?_, ?_, ?_, ?_, ?_⟩
    · intro hw
      exact wear_clamp_mono _ _ hw (mul_nonneg (by norm_num) hdt)
    · intro hw
      exact wear_clamp_mono _ _ hw (mul_nonneg (by norm_num) hdt)
    · intro hw
      exact wear_clamp_mono _ _ hw (mul_nonneg (by norm_num) hdt)
    · intro hw
      exact wear_clamp_mono _ _ hw (mul_nonneg (by norm_num) hdt)
    · intro hT
      exact tire_temp_step_mono _ _ ((18.0:ℝ) * 1) hT1 hdt hcd (by linarith)
    · intro hT
      exact tire_temp_step_mono _ _ ((18.0:ℝ) * 1) hT2 hdt hcd (by linarith)
    · intro hT
      exact tire_temp_step_mono _ _ ((0.6:ℝ) * 18.0 * 1) hT3 hdt hcd (by linarith)
    · intro hT
      exact tire_temp_step_mono _ _ ((0.6:ℝ) * 18.0 * 1) hT4 hdt hcd (by linarith)
  · intro ht hb
    unfold apply_tire_heating_and_wear
    dsimp only
    rw [hb]
    rw [if_neg (show ¬ ((0:ℝ) > 0.1) by norm_num)]
    dsimp only
    rw [ht]
    rw [if_pos (show (1:ℝ) > 0.1 by norm_num)]
    dsimp only
    simp only [Option.getD_none]
    refine ⟨?_, ?_, ?_, ?_, ?_, ?_, ?_, ?_⟩
    · intro hw
      exact wear_clamp_mono _ _ hw (mul_nonneg (by norm_num) hdt)
    · intro hw
      exact wear_clamp_mono _ _ hw (mul_nonneg (by norm_num) hdt)
    · intro hw
      exact wear_clamp_mono _ _ hw (mul_nonneg (by norm_num) hdt)
    · intro hw
      exact wear_clamp_mono _ _ hw (mul_nonneg (by norm_num) hdt)
    · intro hT
      exact tire_temp_step_mono _ _ ((8.0:ℝ) * 1) hT3 hdt hcd (by linarith)
    · intro hT
      exact tire_temp_step_mono _ _ ((8.0:ℝ) * 1) hT4 hdt hcd (by linarith)
    · intro hT
      exact tire_temp_step_mono _ _ ((0.4:ℝ) * 8.0 * 1) hT1 hdt hcd (by linarith)
    · intro hT
      exact tire_temp_step_mono _ _ ((0.4:ℝ) * 8.0 * 1) hT2 hdt hcd (by linarith)
  · intro hb ht
    unfold apply_tire_heating_and_wear
    dsimp only
    rw [hb]
    rw [if_neg (show ¬ ((0:ℝ) > 0.1) by norm_num)]
    dsimp only
    rw [ht]
    rw [if_neg (show ¬ ((0:ℝ) > 0.1) by norm_num)]
    dsimp only
    simp only [Option.getD_none]
    exact ⟨tire_temp_gap_eq _ _ hT1 hdt hcd, tire_temp_gap_eq _ _ hT2 hdt hcd,
      tire_temp_gap_eq _ _ hT3 hdt hcd, tire_temp_gap_eq _ _ hT4 hdt hcd⟩

/-- Witness for the amended C7: a default car under full brake heats and
wears its front-left tire, and a coasting car's tire gap to ambient
contracts. -/
theorem C7_tire_wear_temp_monotonicity_witness :
    ({ baseCar with brake := 1 } : CarState).tire_FL.wear
      ≤ (apply_tire_heating_and_wear { baseCar with brake := 1 } 1 {}).tire_FL.wear ∧
    ({ baseCar with brake := 1 } : CarState).tire_FL.temp_C
      ≤ (apply_tire_heating_and_wear { baseCar with brake := 1 } 1 {}).tire_FL.temp_C ∧
    (apply_tire_heating_and_wear baseCar 1 {}).tire_FL.temp_C - 25
      = (1 - 0.08 * 1) * (baseCar.tire_FL.temp_C - 25) := by
  have h1 := C7_tire_wear_temp_monotonicity { baseCar with brake := 1 } 1
    (by norm_num) (by norm_num)
    (by norm_num [baseCar, gtSpec]) (by norm_num [baseCar, gtSpec])
    (by norm_num [baseCar, gtSpec]) (by norm_num [baseCar, gtSpec])
  have h2 := C7_tire_wear_temp_monotonicity baseCar 1
    (by norm_num) (by norm_num)
    (by norm_num [baseCar, gtSpec]) (by norm_num [baseCar, gtSpec])
    (by norm_num [baseCar, gtSpec]) (by norm_num [baseCar, gtSpec])
  have hb1 := h1.1 (by norm_num [baseCar, gtSpec]) (by norm_num [baseCar, gtSpec])
  refine ⟨hb1.1 (by norm_num [baseCar, gtSpec]), ?_, ?_⟩
  · exact hb1.2.2.2.2.1 (by norm_num [baseCar, gtSpec])
  · exact (h2.2.2 (by norm_num [baseCar, gtSpec]) (by norm_num [baseCar, gtSpec])).1

set_option maxHeartbeats 4000000 in
/-- Concrete evaluation: entering the braking zone at 200 m/s the policy
commands full brake. -/
theorem c7_core_brake_eval :
    (run_sim_core c7Car 1 c7Track).1.brake = 1 := by
  have h20 : Real.sqrt 400 = 20 := by
    rw [show (400:ℝ) = 20 ^ 2 by norm_num, Real.sqrt_sq (by norm_num : (0:ℝ) ≤ 20)]
  unfold run_sim_core
  norm_num [h20, c7Car, baseCar, gtSpec, c7Track,
    find_next_corner, find_corner_ahead, find_first_corner,
    calculate_aero_forces, calculate_tire_friction, calculate_brake_fade,
    update_active_corner, get_corner_boundaries, get_distance_to_corner_points,
    update_throttle_and_brake, calculate_brake_demand, calculate_throttle_demand,
    get_engine_parameters, calculate_driving_force, calculate_torque, torque_scan,
    G, buffer_m, rho_default, max_def, min_def]

/-- The lap handler does not change the brake demand. -/
theorem c7_brake_eval :
    (run_sim c7Car 1 c7Track 1).1.brake = 1 := by
  rw [run_sim_state_eq]
  simp only [handle_lap_completion_brake]
  exact c7_core_brake_eval

/-- If the policy left a non-zero brake, it was the brake branch, which
zeroes the throttle. -/
theorem update_throttle_and_brake_brake_pos_throttle_zero (c : CarState) (d a : ℝ) :
    (update_throttle_and_brake c d a).brake ≠ 0 →
    (update_throttle_and_brake c d a).throttle = 0 := by
  unfold update_throttle_and_brake
  dsimp only
  split_ifs <;> simp

/-- After `run_sim_core`, a non-zero brake forces a zero throttle. -/
theorem run_sim_core_brake_throttle (c : CarState) (dt : ℝ) (tr : Track) :
    (run_sim_core c dt tr).1.brake ≠ 0 → (run_sim_core c dt tr).1.throttle = 0 := by
  unfold run_sim_core
  simp only [apply_tire_heating_and_wear_brake, apply_brake_heating_and_cooling_brake,
    update_gear_and_rpm_brake, apply_tire_heating_and_wear_throttle,
    apply_brake_heating_and_cooling_throttle, update_gear_and_rpm_throttle]
  exact update_throttle_and_brake_brake_pos_throttle_zero _ _ _

/-- In the full-brake tick the throttle is zero. -/
theorem c7_core_throttle_eval :
    (run_sim_core c7Car 1 c7Track).1.throttle = 0 :=
  run_sim_core_brake_throttle c7Car 1 c7Track (by rw [c7_core_brake_eval]; norm_num)

/-- Under full brake and zero throttle with default parameters, the
front-left tire temperature after the thermal integrator is the cooled
value plus the front brake-heating term. -/
theorem apply_tire_FL_temp_formula (c : CarState) (dt : ℝ) (ep : EngineParams)
    (hb : c.brake = 1) (ht : c.throttle = 0) (hep : ep = {}) :
    (apply_tire_heating_and_wear c dt ep).tire_FL.temp_C
      = max 0 (c.tire_FL.temp_C - 0.08 * (c.tire_FL.temp_C - 25.0) * dt)
        + 18.0 * 1 * dt := by
  subst hep
  unfold apply_tire_heating_and_wear
  dsimp only
  rw [hb]
  rw [if_pos (show (1:ℝ) > 0.1 by norm_num)]
  dsimp only
  rw [ht]
  rw [if_neg (show ¬ ((0:ℝ) > 0.1) by norm_num)]
  dsimp only
  simp only [Option.getD_none]

/-- Through `run_sim_core`, a full-brake zero-throttle tick updates the
front-left tire temperature by the cool-then-heat formula applied to the
entry state. -/
theorem run_sim_core_tire_FL_temp_brake1 (c : CarState) (dt : ℝ) (tr : Track)
    (hb : (run_sim_core c dt tr).1.brake = 1)
    (ht : (run_sim_core c dt tr).1.throttle = 0)
    (hep : c.engine_params = none) :
    (run_sim_core c dt tr).1.tire_FL.temp_C
      = max 0 (c.tire_FL.temp_C - 0.08 * (c.tire_FL.temp_C - 25.0) * dt)
        + 18.0 * 1 * dt := by
  unfold run_sim_core at hb ht ⊢
  simp only [apply_tire_heating_and_wear_brake, apply_brake_heating_and_cooling_brake,
    update_gear_and_rpm_brake, apply_tire_heating_and_wear_throttle,
    apply_brake_heating_and_cooling_throttle, update_gear_and_rpm_throttle] at hb ht
  rw [apply_tire_FL_temp_formula]
  · simp
  · simpa using hb
  · simpa using ht
  · simp [hep]

set_option maxHeartbeats 1000000 in
/-- Concrete evaluation: the overheated (1000 °C) front-left tire ends the
full-brake tick at 940 °C. -/
theorem c7_temp_eval :
    (run_sim c7Car 1 c7Track 1).1.tire_FL.temp_C = 940 := by
  rw [run_sim_state_eq]
  simp only [handle_lap_completion_tire_FL]
  rw [run_sim_core_tire_FL_temp_brake1 c7Car 1 c7Track c7_core_brake_eval
    c7_core_throttle_eval rfl]
  norm_num [c7Car, baseCar, gtSpec, max_def]

/-- C7 counterexample: under sustained full brake (the tick's brake output
is 1.0) the front-left tire temperature strictly decreases across the
`run_sim` tick, because cooling toward ambient outweighs brake heating on
an overheated tire. -/
theorem C7_counterexample :
    (run_sim c7Car 1 c7Track 1).1.brake = 1 ∧
    (run_sim c7Car 1 c7Track 1).1.tire_FL.temp_C < c7Car.tire_FL.temp_C := by
  refine ⟨c7_brake_eval, ?_⟩
  rw [c7_temp_eval]
  norm_num [c7Car, baseCar, gtSpec]

set_option maxHeartbeats 2000000 in
/-- Concrete evaluation: on the radius-100 corner scenario the corner
tracker's target speed is `sqrt(1.3 * 9.81 * 100)` and the policy
commands full brake, for every time step and simulation time. -/
theorem c8_eval (dt t : ℝ) :
    (run_sim c8Car dt c8Track t).1.velo_target = Real.sqrt 12753 / Real.sqrt 10 ∧
    (run_sim c8Car dt c8Track t).1.brake = 1 := by
  have hs : Real.sqrt 12753 / Real.sqrt 10 = Real.sqrt 1275.3 := by
    rw [← Real.sqrt_div (by norm_num : (0:ℝ) ≤ 12753)]
    norm_num
  have h60 : Real.sqrt 1275.3 < 60 := by
    nlinarith [Real.sq_sqrt (show (0:ℝ) ≤ 1275.3 by norm_num),
      Real.sqrt_nonneg (1275.3:ℝ)]
  have ha : Real.sqrt 12753 / Real.sqrt 10 < 60 := by
    rw [hs]
    exact h60
  have hb : 0 < Real.sqrt 12753 / Real.sqrt 10 :=
    div_pos (Real.sqrt_pos.mpr (by norm_num)) (Real.sqrt_pos.mpr (by norm_num))
  have hc : ¬ ((60:ℝ) ≤ Real.sqrt 12753 / Real.sqrt 10) := not_le.mpr ha
  have hd : (Real.sqrt 12753 / Real.sqrt 10) ^ 2 = 12753 / 10 := by
    rw [div_pow, Real.sq_sqrt (by norm_num : (0:ℝ) ≤ 12753),
      Real.sq_sqrt (by norm_num : (0:ℝ) ≤ 10)]
  constructor <;>
  · rw [run_sim_state_eq]
    simp only [handle_lap_completion_velo_target, handle_lap_completion_brake]
    unfold run_sim_core
    norm_num [ha, hb, hc, hd, c8Car, baseCar, gtSpec, c8Track,
      find_next_corner, find_corner_ahead, find_first_corner,
      calculate_aero_forces, calculate_tire_friction, calculate_brake_fade,
      update_active_corner, get_corner_boundaries, get_distance_to_corner_points,
      update_throttle_and_brake, calculate_brake_demand, calculate_throttle_demand,
      get_engine_parameters, calculate_driving_force, calculate_torque, torque_scan,
      G, buffer_m, rho_default, max_def, min_def]

/-- C8 (amended): on the spec scenario (one corner of radius 100 m,
effective friction 1.3, g = 9.81) the corner tracker's target speed is
`sqrt(1.3 * 9.81 * 100)` (strictly between 35.70 and 35.72 m/s), and a car
10 m before the apex at 60 m/s is commanded full brake by `run_sim` for
every tick size.  (The unamended claim — velocity at most the target by
the apex boundary — fails for a large enough time step, see the
counterexample.) -/
theorem C8_corner_scenario (dt t : ℝ) (hdt : 0 < dt) :
    35.70 < (run_sim c8Car dt c8Track t).1.velo_target ∧
    (run_sim c8Car dt c8Track t).1.velo_target < 35.72 ∧
    (run_sim c8Car dt c8Track t).1.brake = 1 := by
  obtain ⟨hv, hbrake⟩ := c8_eval dt t
  have hs : Real.sqrt 12753 / Real.sqrt 10 = Real.sqrt 1275.3 := by
    rw [← Real.sqrt_div (by norm_num : (0:ℝ) ≤ 12753)]
    norm_num
  have h2 : Real.sqrt 1275.3 ^ 2 = 1275.3 := Real.sq_sqrt (by norm_num)
  have h0 : 0 ≤ Real.sqrt 1275.3 := Real.sqrt_nonneg _
  rw [hv, hs]
  refine ⟨by nlinarith, by nlinarith, hbrake⟩

/-- Witness for the amended C8 at `dt = 1`, `sim_t = 0`. -/
theorem C8_corner_scenario_witness :
    35.70 < (run_sim c8Car 1 c8Track 0).1.velo_target ∧
    (run_sim c8Car 1 c8Track 0).1.velo_target < 35.72 ∧
    (run_sim c8Car 1 c8Track 0).1.brake = 1 :=
  C8_corner_scenario 1 0 (by norm_num)

set_option maxHeartbeats 8000000 in
/-- Concrete evaluation: with `dt = 1` the scenario car integrates from
1020 m to 1074.926425 m in a single tick. -/
theorem c8_core_pos_eval :
    (run_sim_core c8Car 1 c8Track).1.track_position = 1074.926425 := by
  have ha : Real.sqrt 12753 / Real.sqrt 10 < 60 := by
    have hs : Real.sqrt 12753 / Real.sqrt 10 = Real.sqrt 1275.3 := by
      rw [← Real.sqrt_div (by norm_num : (0:ℝ) ≤ 12753)]
      norm_num
    rw [hs]
    nlinarith [Real.sq_sqrt (show (0:ℝ) ≤ 1275.3 by norm_num),
      Real.sqrt_nonneg (1275.3:ℝ)]
  have hb : 0 < Real.sqrt 12753 / Real.sqrt 10 :=
    div_pos (Real.sqrt_pos.mpr (by norm_num)) (Real.sqrt_pos.mpr (by norm_num))
  have hc : ¬ ((60:ℝ) ≤ Real.sqrt 12753 / Real.sqrt 10) := not_le.mpr ha
  have hd : (Real.sqrt 12753 / Real.sqrt 10) ^ 2 = 12753 / 10 := by
    rw [div_pow, Real.sq_sqrt (by norm_num : (0:ℝ) ≤ 12753),
      Real.sq_sqrt (by norm_num : (0:ℝ) ≤ 10)]
  unfold run_sim_core
  norm_num [ha, hb, hc, hd, c8Car, baseCar, gtSpec, c8Track,
    find_next_corner, find_corner_ahead, find_first_corner,
    calculate_aero_forces, calculate_tire_friction, calculate_brake_fade,
    update_active_corner, get_corner_boundaries, get_distance_to_corner_points,
    update_throttle_and_brake, calculate_brake_demand, calculate_throttle_demand,
    get_engine_parameters, calculate_driving_force, calculate_torque, torque_scan,
    G, buffer_m, rho_default, max_def, min_def]

set_option maxHeartbeats 8000000 in
/-- Concrete evaluation: after one `dt = 1` tick of full braking the
scenario car is still at 49.85285 m/s. -/
theorem c8_core_vel_eval :
    (run_sim_core c8Car 1 c8Track).1.velocity_mps = 49.85285 := by
  have ha : Real.sqrt 12753 / Real.sqrt 10 < 60 := by
    have hs : Real.sqrt 12753 / Real.sqrt 10 = Real.sqrt 1275.3 := by
      rw [← Real.sqrt_div (by norm_num : (0:ℝ) ≤ 12753)]
      norm_num
    rw [hs]
    nlinarith [Real.sq_sqrt (show (0:ℝ) ≤ 1275.3 by norm_num),
      Real.sqrt_nonneg (1275.3:ℝ)]
  have hb : 0 < Real.sqrt 12753 / Real.sqrt 10 :=
    div_pos (Real.sqrt_pos.mpr (by norm_num)) (Real.sqrt_pos.mpr (by norm_num))
  have hc : ¬ ((60:ℝ) ≤ Real.sqrt 12753 / Real.sqrt 10) := not_le.mpr ha
  have hd : (Real.sqrt 12753 / Real.sqrt 10) ^ 2 = 12753 / 10 := by
    rw [div_pow, Real.sq_sqrt (by norm_num : (0:ℝ) ≤ 12753),
      Real.sq_sqrt (by norm_num : (0:ℝ) ≤ 10)]
  unfold run_sim_core
  norm_num [ha, hb, hc, hd, c8Car, baseCar, gtSpec, c8Track,
    find_next_corner, find_corner_ahead, find_first_corner,
    calculate_aero_forces, calculate_tire_friction, calculate_brake_fade,
    update_active_corner, get_corner_boundaries, get_distance_to_corner_points,
    update_throttle_and_brake, calculate_brake_demand, calculate_throttle_demand,
    get_engine_parameters, calculate_driving_force, calculate_torque, torque_scan,
    G, buffer_m, rho_default, max_def, min_def]

set_option maxHeartbeats 1000000 in
/-- Concrete evaluation: the active corner apex of the scenario is at
1030 m. -/
theorem c8_apex_eval :
    (run_sim c8Car 1 c8Track 1).1.active_corner_apex = 1030 := by
  rw [run_sim_state_eq]
  simp only [handle_lap_completion_active_corner_apex]
  unfold run_sim_core
  norm_num [update_active_corner, find_next_corner, find_corner_ahead,
    find_first_corner, get_corner_boundaries, calculate_tire_friction,
    c8Car, baseCar, gtSpec, c8Track, G, max_def, min_def]

/-- C8 counterexample: starting 10 m before the apex boundary (1030 m) at
60 m/s, one `run_sim` tick with `dt = 1` carries the car past the apex at
49.85 m/s, well above the ≈35.7 m/s target — the claimed "at most the
target speed by the apex boundary" does not hold for every tick size. -/
theorem C8_counterexample :
    c8Car.track_position < (run_sim c8Car 1 c8Track 1).1.active_corner_apex ∧
    (run_sim c8Car 1 c8Track 1).1.active_corner_apex
      ≤ (run_sim c8Car 1 c8Track 1).1.track_position ∧
    (run_sim c8Car 1 c8Track 1).1.velo_target
      < (run_sim c8Car 1 c8Track 1).1.velocity_mps := by
  have hpos : (run_sim c8Car 1 c8Track 1).1.track_position = 1074.926425 := by
    rw [run_sim_state_eq]
    unfold handle_lap_completion
    rw [if_neg (by rw [c8_core_pos_eval]; norm_num [c8Track])]
    exact c8_core_pos_eval
  have hvel : (run_sim c8Car 1 c8Track 1).1.velocity_mps = 49.85285 := by
    rw [run_sim_state_eq]
    simp only [handle_lap_completion_velocity_mps]
    exact c8_core_vel_eval
  refine ⟨?_, ?_, ?_⟩
  · rw [c8_apex_eval]
    norm_num [c8Car, baseCar, gtSpec]
  · rw [c8_apex_eval, hpos]
    norm_num
  · rw [hvel, (c8_eval 1 1).1]
    have hs : Real.sqrt 12753 / Real.sqrt 10 = Real.sqrt 1275.3 := by
      rw [← Real.sqrt_div (by norm_num : (0:ℝ) ≤ 12753)]
      norm_num
    rw [hs]
    nlinarith [Real.sq_sqrt (show (0:ℝ) ≤ 1275.3 by norm_num),
      Real.sqrt_nonneg (1275.3:ℝ)]

end CarSim
